import Mathlib

/-!
Verification development for the Market_Data indicator plugin engine and
chart-composition layout logic.

The embedding models pandas cell values as exact rationals extended with the
IEEE special values (nan, +inf, -inf); floating-point rounding is replaced by
exact arithmetic, and signed zero is not modelled.  DataFrames are column
stores over these cells.  Python dictionaries are modelled as association
lists whose keys are unique.
-/

/-- A pandas cell value: an exact rational standing for a finite float, or one
of the IEEE special values.  `nan` also stands for pandas missing values. -/
inductive PF where
  | fin (q : ℚ)
  | inf
  | ninf
  | nan
  deriving DecidableEq, Repr

/-- IEEE negation on cells. -/
def pfNeg : PF → PF
  | .fin q => .fin (-q)
  | .inf => .ninf
  | .ninf => .inf
  | .nan => .nan

/-- IEEE absolute value on cells. -/
def pfAbs : PF → PF
  | .fin q => .fin |q|
  | .inf => .inf
  | .ninf => .inf
  | .nan => .nan

/-- IEEE addition on cells (exact on finite values). -/
def pfAdd : PF → PF → PF
  | .nan, _ => .nan
  | _, .nan => .nan
  | .fin a, .fin b => .fin (a + b)
  | .inf, .ninf => .nan
  | .ninf, .inf => .nan
  | .inf, _ => .inf
  | _, .inf => .inf
  | .ninf, _ => .ninf
  | _, .ninf => .ninf

/-- IEEE subtraction on cells, as addition of the negation. -/
def pfSub (a b : PF) : PF := pfAdd a (pfNeg b)

/-- IEEE multiplication on cells (exact on finite values). -/
def pfMul : PF → PF → PF
  | .nan, _ => .nan
  | _, .nan => .nan
  | .fin a, .fin b => .fin (a * b)
  | .inf, .inf => .inf
  | .inf, .ninf => .ninf
  | .ninf, .inf => .ninf
  | .ninf, .ninf => .inf
  | .inf, .fin a => if 0 < a then .inf else if a < 0 then .ninf else .nan
  | .fin a, .inf => if 0 < a then .inf else if a < 0 then .ninf else .nan
  | .ninf, .fin a => if 0 < a then .ninf else if a < 0 then .inf else .nan
  | .fin a, .ninf => if 0 < a then .ninf else if a < 0 then .inf else .nan

/-- IEEE division on cells (exact on finite values; division by an exact zero
follows the sign of the numerator, ignoring signed zero). -/
def pfDiv : PF → PF → PF
  | .nan, _ => .nan
  | _, .nan => .nan
  | .fin a, .fin b =>
      if b = 0 then (if 0 < a then .inf else if a < 0 then .ninf else .nan)
      else .fin (a / b)
  | .fin _, .inf => .fin 0
  | .fin _, .ninf => .fin 0
  | .inf, .fin b => if 0 ≤ b then .inf else .ninf
  | .ninf, .fin b => if 0 ≤ b then .ninf else .inf
  | .inf, .inf => .nan
  | .inf, .ninf => .nan
  | .ninf, .inf => .nan
  | .ninf, .ninf => .nan

/-- IEEE strict less-than on cells: any comparison with nan is False. -/
def pfLtB : PF → PF → Bool
  | .nan, _ => false
  | _, .nan => false
  | .fin a, .fin b => a < b
  | .fin _, .inf => true
  | .fin _, .ninf => false
  | .inf, _ => false
  | .ninf, .ninf => false
  | .ninf, _ => true

/-- IEEE less-or-equal on cells: any comparison with nan is False. -/
def pfLeB : PF → PF → Bool
  | .nan, _ => false
  | _, .nan => false
  | .fin a, .fin b => a ≤ b
  | _, .inf => true
  | .inf, _ => false
  | .ninf, _ => true
  | .fin _, .ninf => false

/-- IEEE greater-than on cells. -/
def pfGtB (a b : PF) : Bool := pfLtB b a

/-- IEEE greater-or-equal on cells. -/
def pfGeB (a b : PF) : Bool := pfLeB b a

/-- Sum of a list of cells, as pandas computes a window sum. -/
def pfSum (xs : List PF) : PF := xs.foldl pfAdd (.fin 0)

/-- Rational square root with fixed precision.  Floating-point sqrt is an
approximation and so is this; no theorem in this file depends on its value. -/
def ratSqrt (q : ℚ) : ℚ :=
  ((Nat.sqrt (Int.toNat ⌊q * 1000000000000⌋) : ℚ)) / 1000000

/-- IEEE square root on cells, with `ratSqrt` in place of float sqrt. -/
def pfSqrt : PF → PF
  | .fin q => if q < 0 then .nan else .fin (ratSqrt q)
  | .inf => .inf
  | .ninf => .nan
  | .nan => .nan

/-- pandas `Series.diff()`: first entry NaN, then consecutive differences. -/
def diffPF (xs : List PF) : List PF := List.zipWith pfSub xs (PF.nan :: xs)

/-- pandas `Series.shift(1)`: prepend NaN, drop the last entry. -/
def shiftPF (xs : List PF) : List PF := PF.nan :: xs.dropLast

/-- The trailing window of length `w` ending at index `i` (empty or short
during the warm-up prefix). -/
def windowAt (w : Nat) (xs : List PF) (i : Nat) : List PF :=
  (xs.take (i + 1)).drop (i + 1 - w)

/-- Generic pandas rolling computation with `min_periods = window`: NaN while
the window is incomplete, otherwise `f` applied to the trailing window. -/
def rollingPF (w : Nat) (f : List PF → PF) (xs : List PF) : List PF :=
  (List.range xs.length).map fun i => if i + 1 < w then PF.nan else f (windowAt w xs i)

/-- pandas `Series.rolling(window = w).mean()`. -/
def rollingMeanPF (w : Nat) (xs : List PF) : List PF :=
  rollingPF w (fun win => pfDiv (pfSum win) (.fin w)) xs

/-- pandas `Series.rolling(window = w).sum()`. -/
def rollingSumPF (w : Nat) (xs : List PF) : List PF :=
  rollingPF w pfSum xs

/-- pandas `Series.rolling(window = w).std()` (sample standard deviation,
ddof = 1; NaN for a single-element window). -/
def rollingStdPF (w : Nat) (xs : List PF) : List PF :=
  rollingPF w (fun win =>
    let m := pfDiv (pfSum win) (.fin w)
    pfSqrt (pfDiv (pfSum (win.map fun x => pfMul (pfSub x m) (pfSub x m))) (.fin (w - 1 : Nat)))) xs

/-- Recursive worker for `ewmMean`; the accumulator is the last computed mean.
A NaN input keeps the previous mean, as pandas does (never exercised by the
validated inputs used in this file). -/
def ewmGo (a : ℚ) : Option PF → List PF → List PF
  | _, [] => []
  | none, .nan :: rest => .nan :: ewmGo a none rest
  | none, x :: rest => x :: ewmGo a (some x) rest
  | some y, .nan :: rest => y :: ewmGo a (some y) rest
  | some y, x :: rest =>
      let z := pfAdd (pfMul (.fin (1 - a)) y) (pfMul (.fin a) x)
      z :: ewmGo a (some z) rest

/-- pandas `Series.ewm(span = s, adjust = False).mean()`: smoothing factor
alpha = 2/(s+1), seeded by the first value, recursive non-adjusted form. -/
def ewmMean (span : Nat) (xs : List PF) : List PF :=
  ewmGo (2 / ((span : ℚ) + 1)) none xs

/-- A DataFrame: a row count and named columns of cells.  Each column of a
well-formed frame has `nrows` entries. -/
structure Frame where
  nrows : Nat
  cols : List (String × List PF)
  deriving DecidableEq, Repr

/-- Column lookup (first match, as in a dict-backed column store). -/
def Frame.getCol (df : Frame) (c : String) : Option (List PF) :=
  (df.cols.find? (fun p => p.1 = c)).map Prod.snd

/-- Column lookup with the empty column as default (used only after the
presence of the column has been checked, as the source does). -/
def Frame.getColD (df : Frame) (c : String) : List PF := (df.getCol c).getD []

/-- Membership test for a column name (`c in df.columns`). -/
def Frame.hasCol (df : Frame) (c : String) : Bool := (df.getCol c).isSome

/-- pandas column assignment `df[c] = v`: replace the column in place if it
exists, otherwise append it. -/
def Frame.setCol (df : Frame) (c : String) (v : List PF) : Frame :=
  if df.hasCol c then
    { df with cols := df.cols.map fun p => if p.1 = c then (c, v) else p }
  else
    { df with cols := df.cols ++ [(c, v)] }

/-- The required OHLCV columns (the source keeps them in a set). -/
def requiredColumns : List String := ["open", "high", "low", "close", "volume"]

/-- Python `"; ".join(errors)`. -/
def joinErrors (l : List String) : String := String.intercalate "; " l

namespace BaseIndicator

/-- `BaseIndicator.validate_data` (base_indicator.py lines 201-240): empty
check, missing-column check, NaN counts in open/high/low/close, high < low
count.  The numeric-dtype check cannot fail in this model, where every cell is
numeric.  Python renders the missing-column set and the counts inside the
messages; the renderings here differ in punctuation only and no theorem
inspects them. -/
def validate_data (df : Frame) : Bool × List String :=
  if df.nrows = 0 then (false, ["DataFrame is empty"])
  else
    let missing := requiredColumns.filter (fun c => ¬ df.hasCol c)
    let e1 : List String :=
      if missing.isEmpty then []
      else ["Missing columns: " ++ String.intercalate ", " missing]
    let e2 : List String := ["open", "high", "low", "close"].filterMap fun c =>
      match df.getCol c with
      | some col =>
          let n := col.countP (· = PF.nan)
          if n > 0 then some ("Column " ++ c ++ " contains " ++ toString n ++ " NaN values")
          else none
      | none => none
    let e3 : List String :=
      if df.hasCol "high" && df.hasCol "low" then
        let n := (List.zipWith pfLtB (df.getColD "high") (df.getColD "low")).count true
        if n > 0 then [toString n ++ " rows have high < low"] else []
      else []
    let errors := e1 ++ e2 ++ e3
    (errors.isEmpty, errors)

end BaseIndicator

/-- The exceptions `calculate` raises: `ValueError` or `KeyError`. -/
inductive CalcErr where
  | valueError (msg : String)
  | keyError (msg : String)
  deriving DecidableEq, Repr

/-- The period-versus-length message shared by EMA, RSI and Bollinger Bands
(and unreachably by SMA). -/
def periodLenMsg (period n : Nat) : String :=
  "Period (" ++ toString period ++ ") cannot be greater than data length (" ++ toString n ++ ")"

/-- A Python value as it appears among parameter values.  Python `bool` is a
subclass of `int`, which the `isinstance` tests below reflect. -/
inductive PyVal where
  | int (n : ℤ)
  | float (q : ℚ)
  | bool (b : Bool)
  | str (s : String)
  deriving DecidableEq, Repr

/-- Python `type(value).__name__`, used only inside error messages. -/
def pyTypeName : PyVal → String
  | .int _ => "int"
  | .float _ => "float"
  | .bool _ => "bool"
  | .str _ => "str"

/-- Python `isinstance(value, int)` (true for bool, a subclass of int). -/
def isInstInt : PyVal → Bool
  | .int _ => true
  | .bool _ => true
  | _ => false

/-- Python `isinstance(value, (int, float))`. -/
def isInstNum : PyVal → Bool
  | .int _ => true
  | .bool _ => true
  | .float _ => true
  | _ => false

/-- The numeric content of a value, as Python uses it in comparisons
(True counts as 1, False as 0). -/
def PyVal.toRat : PyVal → ℚ
  | .int n => n
  | .float q => q
  | .bool b => if b then 1 else 0
  | .str _ => 0

/-- Python rendering of a value inside an f-string (never inspected by any
theorem; rationals are rendered in Lean form rather than float form). -/
def pyShow : PyVal → String
  | .int n => toString n
  | .float q => toString q
  | .bool b => if b then "True" else "False"
  | .str s => s

/-- Python `value in choices` where `choices` is a list of strings: only a
string can compare equal to a string. -/
def pyValInChoices (v : PyVal) (cs : List String) : Bool :=
  match v with
  | .str s => cs.contains s
  | _ => false

/-- `ParameterDefinition` (base_indicator.py lines 14-25).  The `type` field
is spelled `ptype` because `type` is reserved in Lean; `default` doubles as
schema default and mutable current value exactly as in the source. -/
structure ParameterDefinition where
  name : String
  ptype : String
  default : PyVal
  min_value : Option ℚ := none
  max_value : Option ℚ := none
  step : Option ℚ := none
  choices : Option (List String) := none
  description : String := ""
  deriving DecidableEq, Repr

/-- `self.min_value is not None and value < self.min_value`. -/
def ParameterDefinition.belowMin (d : ParameterDefinition) (x : ℚ) : Bool :=
  match d.min_value with
  | some m => x < m
  | none => false

/-- `self.max_value is not None and value > self.max_value`. -/
def ParameterDefinition.aboveMax (d : ParameterDefinition) (x : ℚ) : Bool :=
  match d.max_value with
  | some m => m < x
  | none => false

/-- `ParameterDefinition.validate` (base_indicator.py lines 27-67): type tag
dispatch; inclusive bounds for int/float; type check only for bool/str;
membership only for choice (when the choice list is truthy); everything else
validates.  Messages drop Python quotes but no theorem inspects them. -/
def ParameterDefinition.validate (d : ParameterDefinition) (v : PyVal) : Bool × Option String :=
  if d.ptype = "int" then
    if ¬ isInstInt v then (false, some ("Expected int, got " ++ pyTypeName v))
    else if d.belowMin v.toRat then
      (false, some ("Value " ++ pyShow v ++ " is below minimum " ++ toString (d.min_value.getD 0)))
    else if d.aboveMax v.toRat then
      (false, some ("Value " ++ pyShow v ++ " is above maximum " ++ toString (d.max_value.getD 0)))
    else (true, none)
  else if d.ptype = "float" then
    if ¬ isInstNum v then (false, some ("Expected float, got " ++ pyTypeName v))
    else if d.belowMin v.toRat then
      (false, some ("Value " ++ toString v.toRat ++ " is below minimum " ++ toString (d.min_value.getD 0)))
    else if d.aboveMax v.toRat then
      (false, some ("Value " ++ toString v.toRat ++ " is above maximum " ++ toString (d.max_value.getD 0)))
    else (true, none)
  else if d.ptype = "bool" then
    match v with
    | .bool _ => (true, none)
    | _ => (false, some ("Expected bool, got " ++ pyTypeName v))
  else if d.ptype = "str" then
    match v with
    | .str _ => (true, none)
    | _ => (false, some ("Expected str, got " ++ pyTypeName v))
  else if d.ptype = "choice" then
    match d.choices with
    | some cs =>
        if ¬ cs.isEmpty && ¬ pyValInChoices v cs then
          (false, some ("Value " ++ pyShow v ++ " not in choices"))
        else (true, none)
    | none => (true, none)
  else (true, none)

/-- `PlotConfig` (base_indicator.py lines 74-87).  The `type` field is spelled
`ptype` because `type` is reserved in Lean. -/
structure PlotConfig where
  name : String
  ptype : String := "line"
  yaxis : String := "y"
  color : String := "#000000"
  line_width : ℤ := 2
  line_dash : String := "solid"
  opacity : ℚ := 8/10
  fill : String := "none"
  legend : Bool := true
  showlegend : Bool := true
  deriving DecidableEq, Repr

/-- A parameter schema: the `self.parameters` dict of an indicator instance,
as an association list with unique keys. -/
abbrev ParamSchema := List (String × ParameterDefinition)

/-- Dict lookup in a schema (first match). -/
def lookupPD (schema : ParamSchema) (n : String) : Option ParameterDefinition :=
  (schema.find? (fun p => p.1 = n)).map Prod.snd

/-- Dict lookup in a batch of parameter values (first match). -/
def lookupVal (params : List (String × PyVal)) (n : String) : Option PyVal :=
  (params.find? (fun p => p.1 = n)).map Prod.snd

namespace BaseIndicator

/-- `BaseIndicator.validate_parameters` (base_indicator.py lines 242-266):
collect unknown-name errors over the batch, then per-definition errors over
the schema, and succeed iff no error was collected. -/
def validate_parameters (schema : ParamSchema) (params : List (String × PyVal)) :
    Bool × List String :=
  let unknown := params.filterMap fun p =>
    if (lookupPD schema p.1).isSome then none
    else some ("Unknown parameter: " ++ p.1)
  let each := schema.filterMap fun p =>
    match lookupVal params p.1 with
    | some v =>
        let r := p.2.validate v
        if r.1 then none else some ("Parameter " ++ p.1 ++ ": " ++ r.2.getD "")
    | none => none
  let errors := unknown ++ each
  (errors.isEmpty, errors)

/-- One committed assignment `self.parameters[n].default = v` (a no-op on a
name absent from the schema, which the atomic guard makes unreachable). -/
def updateDefault (schema : ParamSchema) (n : String) (v : PyVal) : ParamSchema :=
  schema.map fun p => if p.1 = n then (p.1, { p.2 with default := v }) else p

/-- `BaseIndicator.set_parameters` (base_indicator.py lines 268-284): validate
the whole batch first; commit every value only if validation passed.  Returns
the validation verdict together with the (possibly updated) schema state. -/
def set_parameters (schema : ParamSchema) (params : List (String × PyVal)) :
    (Bool × List String) × ParamSchema :=
  let r := validate_parameters schema params
  if r.1 then (r, params.foldl (fun s p => updateDefault s p.1 p.2) schema)
  else (r, schema)

/-- `BaseIndicator.get_parameters` (base_indicator.py lines 286-296). -/
def get_parameters (schema : ParamSchema) : List (String × PyVal) :=
  schema.map fun p => (p.1, p.2.default)

end BaseIndicator

namespace SimpleMovingAverage

/-- The parameter schema of `SimpleMovingAverage` (simple_moving_average.py
lines 29-41). -/
def parameters : ParamSchema :=
  [("period", { name := "period", ptype := "int", default := .int 20,
                min_value := some 2, max_value := some 500, step := some 1,
                description := "Number of periods to calculate average over" })]

/-- The raising prefix of `SimpleMovingAverage.calculate`
(simple_moving_average.py lines 56-71).  NOTE: line 58 of the source tests
`if not errors` — it raises exactly when the violation list is EMPTY, inverted
relative to every sibling indicator; the embedding reproduces the source as
written. -/
def check (period : Nat) (df : Frame) : Option CalcErr :=
  let v := BaseIndicator.validate_data df
  if v.2.isEmpty then
    some (.valueError ("Data validation failed: " ++ joinErrors v.2))
  else if ¬ df.hasCol "close" then
    some (.keyError "DataFrame must contain close column")
  else if period > df.nrows then
    some (.valueError (periodLenMsg period df.nrows))
  else none

/-- The column write of `calculate` (lines 74-75), applied to the copy. -/
def aug (period : Nat) (df : Frame) : Frame :=
  df.setCol ("SMA_" ++ toString period) (rollingMeanPF period (df.getColD "close"))

/-- `SimpleMovingAverage.calculate` (lines 43-77);
`period = self.parameters["period"].default`. -/
def calculate (period : Nat) (df : Frame) : Except CalcErr Frame :=
  match check period df with
  | some e => .error e
  | none => .ok (aug period df)

end SimpleMovingAverage

namespace ExponentialMovingAverage

/-- The raising prefix of `ExponentialMovingAverage.calculate`
(simple_moving_average.py lines 138-151), with the validation branch in its
intended polarity (`if not is_valid`). -/
def check (period : Nat) (df : Frame) : Option CalcErr :=
  let v := BaseIndicator.validate_data df
  if ¬ v.1 then
    some (.valueError ("Data validation failed: " ++ joinErrors v.2))
  else if ¬ df.hasCol "close" then
    some (.keyError "DataFrame must contain close column")
  else if period > df.nrows then
    some (.valueError (periodLenMsg period df.nrows))
  else none

/-- The column write of `calculate` (lines 153-154), applied to the copy. -/
def aug (period : Nat) (df : Frame) : Frame :=
  df.setCol ("EMA_" ++ toString period) (ewmMean period (df.getColD "close"))

/-- `ExponentialMovingAverage.calculate` (lines 128-156). -/
def calculate (period : Nat) (df : Frame) : Except CalcErr Frame :=
  match check period df with
  | some e => .error e
  | none => .ok (aug period df)

end ExponentialMovingAverage

namespace RelativeStrengthIndex

/-- `delta.where(delta > 0, 0)` (momentum_volatility.py line 95): keep the
change where it is positive, else 0; a NaN comparison is False, so the NaN at
index 0 becomes 0. -/
def gains (delta : List PF) : List PF :=
  delta.map fun d => if pfLtB (.fin 0) d then d else .fin 0

/-- `-delta.where(delta < 0, 0)` (line 96). -/
def losses (delta : List PF) : List PF :=
  delta.map fun d => pfNeg (if pfLtB d (.fin 0) then d else .fin 0)

/-- `avg_gain` (line 99): rolling mean of the gains. -/
def avgGain (period : Nat) (close : List PF) : List PF :=
  rollingMeanPF period (gains (diffPF close))

/-- `avg_loss` (line 100): rolling mean of the losses. -/
def avgLoss (period : Nat) (close : List PF) : List PF :=
  rollingMeanPF period (losses (diffPF close))

/-- `rs = avg_gain / avg_loss; rsi = 100 - (100 / (1 + rs))`
(lines 103-104), pointwise over the two rolling averages. -/
def rsiColumn (period : Nat) (close : List PF) : List PF :=
  List.zipWith
    (fun g l => pfSub (.fin 100) (pfDiv (.fin 100) (pfAdd (.fin 1) (pfDiv g l))))
    (avgGain period close) (avgLoss period close)

/-- The raising prefix of `RelativeStrengthIndex.calculate` (lines 74-87). -/
def check (period : Nat) (df : Frame) : Option CalcErr :=
  let v := BaseIndicator.validate_data df
  if ¬ v.1 then
    some (.valueError ("Data validation failed: " ++ joinErrors v.2))
  else if ¬ df.hasCol "close" then
    some (.keyError "DataFrame must contain close column")
  else if period > df.nrows then
    some (.valueError (periodLenMsg period df.nrows))
  else none

/-- The column write of `calculate` (lines 89-106), applied to the copy. -/
def aug (period : Nat) (df : Frame) : Frame :=
  df.setCol ("RSI_" ++ toString period) (rsiColumn period (df.getColD "close"))

/-- `RelativeStrengthIndex.calculate` (lines 64-108). -/
def calculate (period : Nat) (df : Frame) : Except CalcErr Frame :=
  match check period df with
  | some e => .error e
  | none => .ok (aug period df)

end RelativeStrengthIndex

namespace BollingerBands

/-- The raising prefix of `BollingerBands.calculate`
(momentum_volatility.py lines 209-223). -/
def check (period : Nat) (df : Frame) : Option CalcErr :=
  let v := BaseIndicator.validate_data df
  if ¬ v.1 then
    some (.valueError ("Data validation failed: " ++ joinErrors v.2))
  else if ¬ df.hasCol "close" then
    some (.keyError "DataFrame must contain close column")
  else if period > df.nrows then
    some (.valueError (periodLenMsg period df.nrows))
  else none

/-- The column writes of `calculate` (lines 225-244), applied to the copy:
middle = rolling mean, band = rolling std times multiplier, upper/lower =
middle plus/minus band, width = upper minus lower. -/
def aug (period : Nat) (multiplier : ℚ) (df : Frame) : Frame :=
  let close := df.getColD "close"
  let middle := rollingMeanPF period close
  let std := rollingStdPF period close
  let band := std.map fun s => pfMul s (.fin multiplier)
  let upper := List.zipWith pfAdd middle band
  let lower := List.zipWith pfSub middle band
  let width := List.zipWith pfSub upper lower
  ((((df.setCol ("BB_Middle_" ++ toString period) middle).setCol
      ("BB_Upper_" ++ toString period) upper).setCol
      ("BB_Lower_" ++ toString period) lower).setCol
      ("BB_Width_" ++ toString period) width)

/-- `BollingerBands.calculate` (lines 199-246);
`multiplier = self.parameters["multiplier"].default`. -/
def calculate (period : Nat) (multiplier : ℚ) (df : Frame) : Except CalcErr Frame :=
  match check period df with
  | some e => .error e
  | none => .ok (aug period multiplier df)

end BollingerBands

namespace MarketCipherA

/-- `_hlc3` (market_cipher.py lines 81-83): typical price (high+low+close)/3. -/
def hlc3 (df : Frame) : List PF :=
  (List.zipWith pfAdd (List.zipWith pfAdd (df.getColD "high") (df.getColD "low"))
    (df.getColD "close")).map fun x => pfDiv x (.fin 3)

/-- The raising prefix of `MarketCipherA.calculate` (lines 95-103): data
validation, then a loop over the required columns high, low, close.  There is
NO period-versus-length check in this indicator. -/
def check (df : Frame) : Option CalcErr :=
  let v := BaseIndicator.validate_data df
  if ¬ v.1 then
    some (.valueError ("Data validation failed: " ++ joinErrors v.2))
  else
    match ["high", "low", "close"].find? (fun c => ¬ df.hasCol c) with
    | some c => some (.keyError ("DataFrame must contain " ++ c ++ " column"))
    | none => none

/-- The column writes of `calculate` (lines 108-135), applied to the copy:
esa = EMA(hlc3, channel), d = EMA(|hlc3 - esa|, channel),
ci = (hlc3 - esa) / (0.015 d + 1e-10), wt1 = EMA(ci, average),
wt2 = SMA(wt1, 4), histogram = wt1 - wt2. -/
def aug (channel_length average_length : Nat) (df : Frame) : Frame :=
  let h := hlc3 df
  let esa := ewmMean channel_length h
  let d := ewmMean channel_length ((List.zipWith pfSub h esa).map pfAbs)
  let ci := List.zipWith pfDiv (List.zipWith pfSub h esa)
      (d.map fun x => pfAdd (pfMul (.fin (15/1000)) x) (.fin (1/10000000000)))
  let wt1 := ewmMean average_length ci
  let wt2 := rollingMeanPF 4 wt1
  ((df.setCol "MCA_WT1" wt1).setCol "MCA_WT2" wt2).setCol "MCA_Hist"
    (List.zipWith pfSub wt1 wt2)

/-- `MarketCipherA.calculate` (lines 85-137). -/
def calculate (channel_length average_length : Nat) (df : Frame) : Except CalcErr Frame :=
  match check df with
  | some e => .error e
  | none => .ok (aug channel_length average_length df)

/-- `MarketCipherA.get_plot_configs` (lines 139-164): both wave trend lines
declare the secondary axis. -/
def get_plot_configs : List PlotConfig :=
  [{ name := "MCA_WT1", ptype := "line", yaxis := "y2", color := "#00bcd4",
     line_width := 2, line_dash := "solid", opacity := 9/10 },
   { name := "MCA_WT2", ptype := "line", yaxis := "y2", color := "#ff5722",
     line_width := 1, line_dash := "solid", opacity := 7/10 }]

end MarketCipherA

namespace MarketCipherB

/-- `_hlc3` (market_cipher.py lines 242-244). -/
def hlc3 (df : Frame) : List PF :=
  (List.zipWith pfAdd (List.zipWith pfAdd (df.getColD "high") (df.getColD "low"))
    (df.getColD "close")).map fun x => pfDiv x (.fin 3)

/-- `_calculate_mfi` (lines 246-274): raw money flow = typical price times
volume, split by the sign of the typical-price change, rolling sums, then
MFI = 100 - 100/(1 + pos/(neg + 1e-10)), rescaled by (MFI - 50) * 2. -/
def calculate_mfi (length : Nat) (df : Frame) : List PF :=
  let tp := hlc3 df
  let raw := List.zipWith pfMul tp (df.getColD "volume")
  let pc := diffPF tp
  let pos := List.zipWith (fun p r => if pfLtB (.fin 0) p then r else .fin 0) pc raw
  let neg := List.zipWith (fun p r => if pfLtB p (.fin 0) then r else .fin 0) pc raw
  let posMF := rollingSumPF length pos
  let negMF := rollingSumPF length neg
  let mfi := List.zipWith
    (fun pm nm => pfSub (.fin 100) (pfDiv (.fin 100)
      (pfAdd (.fin 1) (pfDiv pm (pfAdd nm (.fin (1/10000000000)))))))
    posMF negMF
  mfi.map fun m => pfMul (pfSub m (.fin 50)) (.fin 2)

/-- `_calculate_wave_trend` (lines 276-294): identical to the Cipher A wave
trend computation. -/
def calculate_wave_trend (channel_length average_length : Nat) (df : Frame) :
    List PF × List PF :=
  let h := hlc3 df
  let esa := ewmMean channel_length h
  let d := ewmMean channel_length ((List.zipWith pfSub h esa).map pfAbs)
  let ci := List.zipWith pfDiv (List.zipWith pfSub h esa)
      (d.map fun x => pfAdd (pfMul (.fin (15/1000)) x) (.fin (1/10000000000)))
  let wt1 := ewmMean average_length ci
  let wt2 := rollingMeanPF 4 wt1
  (wt1, wt2)

/-- The raising prefix of `MarketCipherB.calculate` (lines 306-314): data
validation, then a loop over high, low, close, volume.  There is NO
period-versus-length check in this indicator. -/
def check (df : Frame) : Option CalcErr :=
  let v := BaseIndicator.validate_data df
  if ¬ v.1 then
    some (.valueError ("Data validation failed: " ++ joinErrors v.2))
  else
    match ["high", "low", "close", "volume"].find? (fun c => ¬ df.hasCol c) with
    | some c => some (.keyError ("DataFrame must contain " ++ c ++ " column"))
    | none => none

/-- The column writes of `calculate` (lines 322-348), applied to the copy:
wave trend, money flow, histogram, and the crossover-gated buy/sell columns
carrying the threshold at trigger rows and zero elsewhere. -/
def aug (channel_length average_length mfi_length : Nat) (overbought oversold : ℤ)
    (df : Frame) : Frame :=
  let wt := calculate_wave_trend channel_length average_length df
  let wt1 := wt.1
  let wt2 := wt.2
  let mfi := calculate_mfi mfi_length df
  let hist := List.zipWith pfSub wt1 wt2
  let w1s := shiftPF wt1
  let w2s := shiftPF wt2
  let crossUp := List.zipWith (· && ·)
    (List.zipWith pfGtB wt1 wt2) (List.zipWith pfLeB w1s w2s)
  let crossDown := List.zipWith (· && ·)
    (List.zipWith pfLtB wt1 wt2) (List.zipWith pfGeB w1s w2s)
  let buy := List.zipWith (· && ·) crossUp
    (wt2.map fun w => pfLtB w (.fin (oversold : ℚ)))
  let sell := List.zipWith (· && ·) crossDown
    (wt2.map fun w => pfLtB (.fin (overbought : ℚ)) w)
  (((((df.setCol "MCB_WT1" wt1).setCol "MCB_WT2" wt2).setCol "MCB_MFI" mfi).setCol
    "MCB_Hist" hist).setCol
    "MCB_Buy" (buy.map fun b => PF.fin (if b then (oversold : ℚ) else 0))).setCol
    "MCB_Sell" (sell.map fun b => PF.fin (if b then (overbought : ℚ) else 0))

/-- `MarketCipherB.calculate` (lines 296-350). -/
def calculate (channel_length average_length mfi_length : Nat)
    (overbought oversold : ℤ) (df : Frame) : Except CalcErr Frame :=
  match check df with
  | some e => .error e
  | none => .ok (aug channel_length average_length mfi_length overbought oversold df)

end MarketCipherB

/-! ### Heap model of DataFrame objects

Python DataFrames are mutable objects passed by reference.  To make the
frame effect of `calculate` observable, a heap of frame objects is modelled
explicitly: a DataFrame variable is an index into the heap, `df.copy()`
allocates a fresh object, and a column assignment writes to the object the
variable points at. -/

/-- The heap of frame objects. -/
abbrev Heap := List Frame

/-- The empty frame, used as an out-of-range default. -/
def emptyFrame : Frame := { nrows := 0, cols := [] }

/-- Dereference a frame variable. -/
def Heap.read (h : Heap) (r : Nat) : Frame := h.getD r emptyFrame

/-- Overwrite the object a frame variable points at. -/
def Heap.write (h : Heap) (r : Nat) (f : Frame) : Heap := h.set r f

/-- `df.copy()`: allocate a fresh object with the same contents and return a
reference to it. -/
def Heap.alloc (h : Heap) (f : Frame) : Heap × Nat := (h ++ [f], h.length)

namespace SimpleMovingAverage

/-- `SimpleMovingAverage.calculate` over the heap: run the raising prefix on
the referenced frame, then `df_copy = df.copy()` (line 74), then the column
write on the copy (line 75), returning a reference to the copy. -/
def calculateHeap (period : Nat) (h : Heap) (df : Nat) : Except CalcErr Nat × Heap :=
  match check period (h.read df) with
  | some e => (.error e, h)
  | none =>
      let a := h.alloc (h.read df)
      (.ok a.2, a.1.write a.2 (aug period (a.1.read a.2)))

end SimpleMovingAverage

namespace ExponentialMovingAverage

/-- `ExponentialMovingAverage.calculate` over the heap (copy at line 153,
write at line 154). -/
def calculateHeap (period : Nat) (h : Heap) (df : Nat) : Except CalcErr Nat × Heap :=
  match check period (h.read df) with
  | some e => (.error e, h)
  | none =>
      let a := h.alloc (h.read df)
      (.ok a.2, a.1.write a.2 (aug period (a.1.read a.2)))

end ExponentialMovingAverage

namespace RelativeStrengthIndex

/-- `RelativeStrengthIndex.calculate` over the heap (copy at line 89, write at
line 106). -/
def calculateHeap (period : Nat) (h : Heap) (df : Nat) : Except CalcErr Nat × Heap :=
  match check period (h.read df) with
  | some e => (.error e, h)
  | none =>
      let a := h.alloc (h.read df)
      (.ok a.2, a.1.write a.2 (aug period (a.1.read a.2)))

end RelativeStrengthIndex

namespace BollingerBands

/-- `BollingerBands.calculate` over the heap (copy at line 225, writes at
lines 241-244). -/
def calculateHeap (period : Nat) (multiplier : ℚ) (h : Heap) (df : Nat) :
    Except CalcErr Nat × Heap :=
  match check period (h.read df) with
  | some e => (.error e, h)
  | none =>
      let a := h.alloc (h.read df)
      (.ok a.2, a.1.write a.2 (aug period multiplier (a.1.read a.2)))

end BollingerBands

namespace MarketCipherA

/-- `MarketCipherA.calculate` over the heap (copy at line 108, writes at
lines 133-135). -/
def calculateHeap (channel_length average_length : Nat) (h : Heap) (df : Nat) :
    Except CalcErr Nat × Heap :=
  match check (h.read df) with
  | some e => (.error e, h)
  | none =>
      let a := h.alloc (h.read df)
      (.ok a.2, a.1.write a.2 (aug channel_length average_length (a.1.read a.2)))

end MarketCipherA

namespace MarketCipherB

/-- `MarketCipherB.calculate` over the heap (copy at line 322, writes at
lines 343-348). -/
def calculateHeap (channel_length average_length mfi_length : Nat)
    (overbought oversold : ℤ) (h : Heap) (df : Nat) : Except CalcErr Nat × Heap :=
  match check (h.read df) with
  | some e => (.error e, h)
  | none =>
      let a := h.alloc (h.read df)
      (.ok a.2, a.1.write a.2
        (aug channel_length average_length mfi_length overbought oversold (a.1.read a.2)))

end MarketCipherB

/-! ### Plugin registry model

A candidate plugin class is modelled by the metadata attributes the manager
inspects.  Every subclass of `BaseIndicator` inherits `name`, `version`,
`description` and `author` (with defaults `"Base Indicator"`, `"0.0.0"`,
`""`, `"Unknown"`) as well as the three required methods, so `hasattr` checks
never fail; what can fail is the truthiness of an attribute, abstract-method
instantiation, and the placeholder-name check in
`BaseIndicator._validate_class_attributes`.  The `parameters`-is-a-dict and
`get_plot_configs`-returns-a-list checks cannot fail in this model. -/

/-- A candidate class found in a plugin module. -/
structure PluginClass where
  name : String := "Base Indicator"
  version : String := "0.0.0"
  description : String := ""
  author : String := "Unknown"
  /-- Whether the class overrides the three abstract methods; instantiation
  raises `TypeError` otherwise. -/
  overridesAbstract : Bool := true
  deriving DecidableEq, Repr

/-- The registry state: `loaded_plugins` keyed by display name (the parallel
instance and metadata dicts share the same keys). -/
abbrev Registry := List (String × PluginClass)

namespace PluginManager

/-- `PluginManager._validate_plugin` (plugin_manager.py lines 190-230)
composed with the checks `BaseIndicator.__init__` performs at instantiation
(base_indicator.py lines 149-161): attribute truthiness in declaration order,
required methods (never missing here), then instantiation, which raises for a
non-overridden abstract method or for the placeholder display name. -/
def validatePlugin (c : PluginClass) : Bool × Option String :=
  if c.name = "" then (false, some "Missing or empty name attribute")
  else if c.version = "" then (false, some "Missing or empty version attribute")
  else if c.description = "" then (false, some "Missing or empty description attribute")
  else if c.author = "" then (false, some "Missing or empty author attribute")
  else if ¬ c.overridesAbstract then
    (false, some "Instantiation failed: abstract methods not implemented")
  else if c.name = "Base Indicator" then
    (false, some "Instantiation failed: class must define name")
  else (true, none)

/-- Dict insertion keyed by display name: replace in place, else append
(a later-loaded colliding name replaces the earlier registration). -/
def registerReplace : Registry → String → PluginClass → Registry
  | [], n, c => [(n, c)]
  | p :: rest, n, c =>
      if p.1 = n then (n, c) :: rest else p :: registerReplace rest n c

/-- The per-class loop of `load_plugin` (plugin_manager.py lines 109-141):
validate each candidate, skip invalid ones with a warning, register valid
ones by display name; returns the new registry and the names registered from
this module. -/
def registerClasses (reg : Registry) : List PluginClass → Registry × List String
  | [] => (reg, [])
  | c :: rest =>
      if (validatePlugin c).1 then
        let r := registerClasses (registerReplace reg c.name c) rest
        (r.1, c.name :: r.2)
      else registerClasses reg rest

/-- `PluginManager.load_plugin` (lines 82-148) for an already-imported module:
run the class loop, then report failure iff the module produced no valid
class. -/
def load_plugin (reg : Registry) (module_name : String) (classes : List PluginClass) :
    (Bool × Option String) × Registry :=
  let r := registerClasses reg classes
  if r.2.isEmpty then
    ((false, some ("No valid BaseIndicator subclasses found in " ++ module_name)), r.1)
  else ((true, none), r.1)

/-- `PluginManager.load_all_plugins` (lines 150-170) over the discovered
modules (discovery itself is filesystem I/O and is passed in as data): run
`load_plugin` on every module, recording one result per module; no failure
aborts the batch. -/
def load_all_plugins (reg : Registry) :
    List (String × List PluginClass) → List (String × (Bool × Option String)) × Registry
  | [] => ([], reg)
  | (mn, cls) :: rest =>
      let r := load_plugin reg mn cls
      let rec' := load_all_plugins r.2 rest
      ((mn, r.1) :: rec'.1, rec'.2)

/-- Insertion into a sorted list of strings. -/
def insertSorted (s : String) : List String → List String
  | [] => [s]
  | t :: ts => if s ≤ t then s :: t :: ts else t :: insertSorted s ts

/-- `sorted(...)` on a list of strings. -/
def sortStrings (l : List String) : List String := l.foldr insertSorted []

/-- `PluginManager.get_available_plugins` (lines 232-239): the sorted display
names of the registered indicators. -/
def get_available_plugins (reg : Registry) : List String :=
  sortStrings (reg.map Prod.fst)

/-- Whether a module contains at least one valid candidate class, which is
exactly when `load_plugin` reports success for it. -/
def moduleLoadsOk (cls : List PluginClass) : Bool :=
  cls.any fun c => (validatePlugin c).1

end PluginManager

/-! ### Chart composition layout -/

/-- The layout facts `create_candlestick_chart` fixes: subplot count, height
fractions, the row volume bars target, the row secondary-axis indicator
traces target, and the auxiliary-pane flag. -/
structure LayoutPlan where
  n_subplots : Nat
  row_heights : List ℚ
  volume_row : Option Nat
  indicator_row : Nat
  has_separate : Bool
  deriving DecidableEq, Repr

/-- `has_separate_indicator` (chart_engine.py lines 164-173): true iff some
selected indicator resolves in the registry and its FIRST declared plot
configuration uses the secondary axis.  `lookup` is
`plugin_manager.get_plugin` composed with `get_plot_configs`; an absent
plugin manager is the constant-`none` lookup. -/
def hasSeparateIndicator (lookup : String → Option (List PlotConfig))
    (indicators : List String) : Bool :=
  indicators.any fun ind =>
    match lookup ind with
    | some [] => false
    | some (c :: _) => c.yaxis = "y2"
    | none => false

/-- The layout portion of `create_candlestick_chart` (chart_engine.py lines
164-200, 246-257, 266): subplot count from the volume and auxiliary flags,
the fixed height-fraction table, volume bars at row 2, secondary-axis traces
at the last row. -/
def chartLayout (lookup : String → Option (List PlotConfig))
    (indicators : List String) (show_volume : Bool) : LayoutPlan :=
  let hasSep := hasSeparateIndicator lookup indicators
  let n := 1 + (if show_volume then 1 else 0) + (if hasSep then 1 else 0)
  { n_subplots := n
    row_heights :=
      if hasSep && show_volume then [(1 : ℚ)/2, 1/4, 1/4]
      else if hasSep then [(7 : ℚ)/10, 3/10]
      else if show_volume then [(7 : ℚ)/10, 3/10]
      else [(1 : ℚ)]
    volume_row := if show_volume then some 2 else none
    indicator_row := if hasSep then n else 1
    has_separate := hasSep }

/-! ### Concrete sample data used by witnesses -/

/-- A structurally valid three-row OHLCV frame. -/
def sampleFrame : Frame :=
  { nrows := 3
    cols := [("open", [.fin 1, .fin 2, .fin 3]),
             ("high", [.fin 2, .fin 3, .fin 4]),
             ("low", [.fin 1, .fin 1, .fin 2]),
             ("close", [.fin 1, .fin 2, .fin 3]),
             ("volume", [.fin 10, .fin 20, .fin 30])] }

/-- The frame `RelativeStrengthIndex.calculate` returns on `sampleFrame` with
period 2. -/
def rsiSampleResult : Frame :=
  (RelativeStrengthIndex.calculate 2 sampleFrame).toOption.getD emptyFrame

/-- A parameter batch with an unknown name (rejected by validation). -/
def sampleBadBatch : List (String × PyVal) := [("bogus", .int 1)]

/-- A parameter batch that passes validation against the SMA schema. -/
def sampleGoodBatch : List (String × PyVal) := [("period", .int 30)]

/-- A descriptor with an unrecognized type tag. -/
def sampleUnknownTypeDef : ParameterDefinition :=
  { name := "mode", ptype := "mystery", default := .int 0 }

/-- A choice descriptor whose choice set is empty. -/
def sampleEmptyChoiceDef : ParameterDefinition :=
  { name := "mode", ptype := "choice", default := .str "a", choices := some [] }

/-- A choice descriptor with two choices. -/
def sampleChoiceDef : ParameterDefinition :=
  { name := "mode", ptype := "choice", default := .str "a", choices := some ["a", "b"] }

/-- An int descriptor with both bounds set. -/
def sampleBoundedIntDef : ParameterDefinition :=
  { name := "period", ptype := "int", default := .int 5,
    min_value := some 2, max_value := some 10 }

/-- A well-formed candidate plugin class. -/
def sampleGoodClass : PluginClass :=
  { name := "My Indicator", version := "1.0.0", description := "useful",
    author := "someone", overridesAbstract := true }

/-- A candidate class whose only flaw is the empty inherited description. -/
def sampleBadClass : PluginClass :=
  { name := "Broken Indicator", version := "1.0.0", description := "",
    author := "someone", overridesAbstract := true }

/-- Two discovered modules: one with a valid class, one without. -/
def sampleModules : List (String × List PluginClass) :=
  [("good_module", [sampleGoodClass]), ("bad_module", [sampleBadClass])]

/-- A one-object heap holding the sample frame. -/
def sampleHeap : Heap := [sampleFrame]

/-- A registry lookup exposing one secondary-axis indicator. -/
def sampleLookup : String → Option (List PlotConfig) := fun n =>
  if n = "Relative Strength Index" then
    some [{ name := "RSI(14)", ptype := "line", yaxis := "y2", color := "purple" }]
  else none

/-! ## Support lemmas -/

theorem validate_data_fst_eq (df : Frame) :
    (BaseIndicator.validate_data df).1 = (BaseIndicator.validate_data df).2.isEmpty := by
  unfold BaseIndicator.validate_data
  split <;> rfl

theorem validate_data_true_errors_nil (df : Frame)
    (h : (BaseIndicator.validate_data df).1 = true) :
    (BaseIndicator.validate_data df).2 = [] := by
  have h2 := validate_data_fst_eq df
  rw [h] at h2
  exact List.isEmpty_iff.mp h2.symm

theorem validate_data_true_hasCol (df : Frame)
    (h : (BaseIndicator.validate_data df).1 = true) :
    ∀ c ∈ requiredColumns, df.hasCol c = true := by
  intro c hc
  have hnil := validate_data_true_errors_nil df h
  unfold BaseIndicator.validate_data at hnil
  by_cases h0 : df.nrows = 0
  · rw [if_pos h0] at hnil
    simp at hnil
  · rw [if_neg h0] at hnil
    simp only [List.append_eq_nil] at hnil
    have hmiss := hnil.1.1
    by_cases hm : (requiredColumns.filter (fun c => ¬ df.hasCol c)).isEmpty
    · have := List.isEmpty_iff.mp hm
      have := List.filter_eq_nil_iff.mp this c hc
      simpa using this
    · rw [if_neg hm] at hmiss
      cases hmiss

/-! ## Claims -/

/-- C1: for every bar series that passes structural validation,
`SimpleMovingAverage.calculate` raises instead of returning: line 58 of the
source tests `if not errors` and therefore raises a ValueError with an empty
violation list precisely on valid input, for every period.  This refutes the
claim that a valid series with 2 <= N <= L yields the SMA column. -/
theorem C1_sma_calculate_raises_on_every_valid_series (period : Nat) (df : Frame)
    (h : (BaseIndicator.validate_data df).2 = []) :
    SimpleMovingAverage.calculate period df =
      Except.error (.valueError "Data validation failed: ") := by
  unfold SimpleMovingAverage.calculate SimpleMovingAverage.check
  simp only [h]
  rfl

/-- Witness for C1: the concrete valid three-row frame makes
`SimpleMovingAverage.calculate` raise even with period 2 <= 3. -/
theorem C1_witness :
    (BaseIndicator.validate_data sampleFrame).2 = [] ∧
      SimpleMovingAverage.calculate 2 sampleFrame =
        Except.error (.valueError "Data validation failed: ") :=
  ⟨by decide, C1_sma_calculate_raises_on_every_valid_series 2 sampleFrame (by decide)⟩

/-- C3: when batch validation fails, `set_parameters` returns `(false, errors)`
and commits nothing: `get_parameters` afterwards is exactly what it was
before the call. -/
theorem C3_set_parameters_atomic_on_failure (schema : ParamSchema)
    (params : List (String × PyVal))
    (h : (BaseIndicator.validate_parameters schema params).1 = false) :
    (BaseIndicator.set_parameters schema params).1 =
        (false, (BaseIndicator.validate_parameters schema params).2) ∧
      BaseIndicator.get_parameters (BaseIndicator.set_parameters schema params).2 =
        BaseIndicator.get_parameters schema := by
  rcases hr : BaseIndicator.validate_parameters schema params with ⟨b, errs⟩
  have hb : b = false := by rw [hr] at h; exact h
  subst hb
  unfold BaseIndicator.set_parameters
  rw [hr]
  exact ⟨rfl, rfl⟩

/-- Witness for C3: a batch with an unknown name leaves the SMA schema
untouched. -/
theorem C3_witness :
    (BaseIndicator.set_parameters SimpleMovingAverage.parameters sampleBadBatch).1 =
        (false, (BaseIndicator.validate_parameters SimpleMovingAverage.parameters sampleBadBatch).2) ∧
      BaseIndicator.get_parameters
          (BaseIndicator.set_parameters SimpleMovingAverage.parameters sampleBadBatch).2 =
        BaseIndicator.get_parameters SimpleMovingAverage.parameters :=
  C3_set_parameters_atomic_on_failure SimpleMovingAverage.parameters sampleBadBatch (by decide)

/-- C6: a numeric descriptor with both bounds set accepts a value of its
declared numeric type exactly on the closed interval [M, X]; the boundary
values pass, and everything outside is rejected with an error message. -/
theorem C6_numeric_bounds_closed_interval (d : ParameterDefinition) (v : PyVal) (M X : ℚ)
    (hmin : d.min_value = some M) (hmax : d.max_value = some X)
    (hty : (d.ptype = "int" ∧ ∃ n : ℤ, v = .int n) ∨
           (d.ptype = "float" ∧ ((∃ n : ℤ, v = .int n) ∨ ∃ q : ℚ, v = .float q))) :
    (d.validate v = (true, none) ↔ M ≤ v.toRat ∧ v.toRat ≤ X) ∧
      (¬ (M ≤ v.toRat ∧ v.toRat ≤ X) →
        (d.validate v).1 = false ∧ (d.validate v).2.isSome = true) := by
  have hbm : ∀ x : ℚ, d.belowMin x = decide (x < M) := fun x => by
    unfold ParameterDefinition.belowMin; rw [hmin]
  have ham : ∀ x : ℚ, d.aboveMax x = decide (X < x) := fun x => by
    unfold ParameterDefinition.aboveMax; rw [hmax]
  have hval : d.validate v =
      (if v.toRat < M then
        ((false, some ("Value " ++ pyShow v ++ " is below minimum " ++ toString (d.min_value.getD 0))) : Bool × Option String)
       else if X < v.toRat then
        (false, some ("Value " ++ pyShow v ++ " is above maximum " ++ toString (d.max_value.getD 0)))
       else (true, none)) ∨
      d.validate v =
      (if v.toRat < M then
        ((false, some ("Value " ++ toString v.toRat ++ " is below minimum " ++ toString (d.min_value.getD 0))) : Bool × Option String)
       else if X < v.toRat then
        (false, some ("Value " ++ toString v.toRat ++ " is above maximum " ++ toString (d.max_value.getD 0)))
       else (true, none)) := by
    rcases hty with ⟨hpt, n, hv⟩ | ⟨hpt, hv⟩
    · left
      subst hv
      unfold ParameterDefinition.validate
      simp [hpt, isInstInt, hbm, ham]
    · right
      have hnum : isInstNum v = true := by
        rcases hv with ⟨n, rfl⟩ | ⟨q, rfl⟩ <;> rfl
      unfold ParameterDefinition.validate
      simp [hpt, hnum, hbm, ham]
  rcases hval with hval | hval <;>
  · rw [hval]
    constructor
    · constructor
      · intro he
        split_ifs at he with h1 h2
        · simp at he
        · simp at he
        · exact ⟨not_lt.mp h1, not_lt.mp h2⟩
      · rintro ⟨hM, hX⟩
        rw [if_neg (not_lt.mpr hM), if_neg (not_lt.mpr hX)]
    · intro hcon
      rcases not_and_or.mp hcon with hM | hX
      · rw [if_pos (not_le.mp hM)]
        exact ⟨rfl, rfl⟩
      · by_cases h1 : v.toRat < M
        · rw [if_pos h1]
          exact ⟨rfl, rfl⟩
        · rw [if_neg h1, if_pos (not_le.mp hX)]
          exact ⟨rfl, rfl⟩

/-- Witness for C6: the boundary value 2 of the bounded int descriptor. -/
theorem C6_witness :
    (sampleBoundedIntDef.validate (.int 2) = (true, none) ↔
        (2 : ℚ) ≤ (PyVal.int 2).toRat ∧ (PyVal.int 2).toRat ≤ 10) ∧
      (¬ ((2 : ℚ) ≤ (PyVal.int 2).toRat ∧ (PyVal.int 2).toRat ≤ 10) →
        (sampleBoundedIntDef.validate (.int 2)).1 = false ∧
          (sampleBoundedIntDef.validate (.int 2)).2.isSome = true) :=
  C6_numeric_bounds_closed_interval sampleBoundedIntDef (.int 2) 2 10 rfl rfl
    (Or.inl ⟨rfl, 2, rfl⟩)

/-- C10: an unrecognized type tag validates every value; a choice descriptor
with an absent or empty choice set validates every value; and with a
non-empty choice set the verdict is exactly set membership (no type check). -/
theorem C10_validate_fallthrough_and_choice (d : ParameterDefinition) (v : PyVal) :
    (d.ptype ≠ "int" → d.ptype ≠ "float" → d.ptype ≠ "bool" → d.ptype ≠ "str" →
        d.ptype ≠ "choice" → d.validate v = (true, none)) ∧
      (d.ptype = "choice" → d.choices = none ∨ d.choices = some [] →
        d.validate v = (true, none)) ∧
      (∀ cs, d.ptype = "choice" → d.choices = some cs → cs ≠ [] →
        (d.validate v = (true, none) ↔ pyValInChoices v cs = true)) := by
  refine ⟨?_, ?_, ?_⟩
  · intro h1 h2 h3 h4 h5
    unfold ParameterDefinition.validate
    rw [if_neg h1, if_neg h2, if_neg h3, if_neg h4, if_neg h5]
  · intro h5 hch
    unfold ParameterDefinition.validate
    rcases hch with hn | he
    · simp [h5, hn]
    · simp [h5, he]
  · intro cs h5 hcs hne
    have hie : cs.isEmpty = false := by
      cases cs with
      | nil => exact absurd rfl hne
      | cons a t => rfl
    unfold ParameterDefinition.validate
    by_cases hm : pyValInChoices v cs = true
    · simp [h5, hcs, hie, hm]
    · simp [h5, hcs, hie, hm]

/-- Witness for C10: an unknown tag accepts an int; an empty choice set
accepts an int; a two-element choice set decides by membership. -/
theorem C10_witness :
    sampleUnknownTypeDef.validate (.int 5) = (true, none) ∧
      sampleEmptyChoiceDef.validate (.int 5) = (true, none) ∧
      (sampleChoiceDef.validate (.str "a") = (true, none) ↔
        pyValInChoices (.str "a") ["a", "b"] = true) :=
  ⟨(C10_validate_fallthrough_and_choice sampleUnknownTypeDef (.int 5)).1
      (by decide) (by decide) (by decide) (by decide) (by decide),
   (C10_validate_fallthrough_and_choice sampleEmptyChoiceDef (.int 5)).2.1
      rfl (Or.inr rfl),
   (C10_validate_fallthrough_and_choice sampleChoiceDef (.str "a")).2.2
      ["a", "b"] rfl rfl (by decide)⟩

theorem mem_of_lookupVal {params : List (String × PyVal)} {n : String} {v : PyVal}
    (h : lookupVal params n = some v) : (n, v) ∈ params := by
  unfold lookupVal at h
  cases hf : params.find? (fun p => p.1 = n) with
  | none => rw [hf] at h; cases h
  | some p =>
      rw [hf] at h
      have h1 : p.1 = n := by simpa using List.find?_some hf
      have h2 : p.2 = v := by simpa using h
      have h3 := List.mem_of_find?_eq_some hf
      rw [← h1, ← h2, Prod.mk.eta]
      exact h3

theorem lookupPD_of_nodup_mem (schema : ParamSchema)
    (hnd : (schema.map Prod.fst).Nodup) :
    ∀ n d, (n, d) ∈ schema → lookupPD schema n = some d := by
  induction schema with
  | nil => intro n d h; cases h
  | cons p rest ih =>
      intro n d h
      rw [List.map_cons] at hnd
      obtain ⟨hp, hrest⟩ := List.nodup_cons.mp hnd
      rcases List.mem_cons.mp h with he | hmem
      · rw [← he]
        unfold lookupPD
        rw [List.find?_cons_of_pos _ (by simp)]
        rfl
      · have hne : ¬ (p.1 = n) := by
          intro hpe
          apply hp
          rw [hpe]
          exact List.mem_map.mpr ⟨(n, d), hmem, rfl⟩
        unfold lookupPD
        rw [List.find?_cons_of_neg _ (by simpa using hne)]
        exact ih hrest n d hmem

theorem lookupPD_updateDefault_self (schema : ParamSchema) (n : String) (v : PyVal) :
    lookupPD (BaseIndicator.updateDefault schema n v) n =
      (lookupPD schema n).map fun d => { d with default := v } := by
  induction schema with
  | nil => rfl
  | cons p rest ih =>
      unfold BaseIndicator.updateDefault at ih ⊢
      by_cases hp : p.1 = n
      · simp only [List.map_cons, if_pos hp]
        unfold lookupPD
        rw [List.find?_cons_of_pos _ (by simp [hp]), List.find?_cons_of_pos _ (by simp [hp])]
        rfl
      · simp only [List.map_cons, if_neg hp]
        unfold lookupPD
        rw [List.find?_cons_of_neg _ (by simpa using hp),
            List.find?_cons_of_neg _ (by simpa using hp)]
        exact ih

theorem lookupPD_updateDefault_ne (schema : ParamSchema) (m n : String) (v : PyVal)
    (hnm : n ≠ m) :
    lookupPD (BaseIndicator.updateDefault schema m v) n = lookupPD schema n := by
  induction schema with
  | nil => rfl
  | cons p rest ih =>
      unfold BaseIndicator.updateDefault at ih ⊢
      by_cases hp : p.1 = m
      · have hpn : ¬ (p.1 = n) := by rw [hp]; exact fun h => hnm h.symm
        simp only [List.map_cons, if_pos hp]
        unfold lookupPD
        rw [List.find?_cons_of_neg _ (by simpa using hpn),
            List.find?_cons_of_neg _ (by simpa using hpn)]
        exact ih
      · by_cases hpn : p.1 = n
        · simp only [List.map_cons, if_neg hp]
          unfold lookupPD
          rw [List.find?_cons_of_pos _ (by simp [hpn]),
              List.find?_cons_of_pos _ (by simp [hpn])]
        · simp only [List.map_cons, if_neg hp]
          unfold lookupPD
          rw [List.find?_cons_of_neg _ (by simpa using hpn),
              List.find?_cons_of_neg _ (by simpa using hpn)]
          exact ih

theorem lookupPD_foldl_updateDefault (params : List (String × PyVal)) :
    ∀ (schema : ParamSchema), (params.map Prod.fst).Nodup → ∀ n,
    lookupPD (params.foldl (fun s p => BaseIndicator.updateDefault s p.1 p.2) schema) n =
      (match lookupVal params n with
       | some v => (lookupPD schema n).map fun d => { d with default := v }
       | none => lookupPD schema n) := by
  induction params with
  | nil => intro schema _ n; rfl
  | cons q rest ih =>
      intro schema hnd n
      rw [List.map_cons] at hnd
      obtain ⟨hq, hrest⟩ := List.nodup_cons.mp hnd
      simp only [List.foldl_cons]
      by_cases hqn : q.1 = n
      · have hrestn : lookupVal rest n = none := by
          unfold lookupVal
          rw [List.find?_eq_none.mpr ?_]
          · rfl
          · intro p hpmem hpred
            apply hq
            have : p.1 = n := by simpa using hpred
            rw [hqn, ← this]
            exact List.mem_map.mpr ⟨p, hpmem, rfl⟩
        have hcons : lookupVal (q :: rest) n = some q.2 := by
          unfold lookupVal
          rw [List.find?_cons_of_pos _ (by simp [hqn])]
          rfl
        rw [ih (BaseIndicator.updateDefault schema q.1 q.2) hrest n,
            hrestn, hcons, ← hqn, lookupPD_updateDefault_self]
      · have hcons : lookupVal (q :: rest) n = lookupVal rest n := by
          unfold lookupVal
          rw [List.find?_cons_of_neg _ (by simpa using hqn)]
        rw [ih (BaseIndicator.updateDefault schema q.1 q.2) hrest n,
            hcons, lookupPD_updateDefault_ne _ _ _ _ (fun h => hqn h.symm)]

theorem lookupVal_get_parameters (schema : ParamSchema) (n : String) :
    lookupVal (BaseIndicator.get_parameters schema) n =
      (lookupPD schema n).map (fun d => d.default) := by
  induction schema with
  | nil => rfl
  | cons p rest ih =>
      unfold BaseIndicator.get_parameters at ih ⊢
      by_cases hp : p.1 = n
      · simp only [List.map_cons]
        unfold lookupVal lookupPD
        rw [List.find?_cons_of_pos _ (by simp [hp]), List.find?_cons_of_pos _ (by simp [hp])]
        rfl
      · simp only [List.map_cons]
        unfold lookupVal lookupPD
        rw [List.find?_cons_of_neg _ (by simpa using hp),
            List.find?_cons_of_neg _ (by simpa using hp)]
        exact ih

theorem validate_parameters_ok (schema : ParamSchema) (params : List (String × PyVal))
    (hs : (schema.map Prod.fst).Nodup)
    (hv : ∀ p ∈ params, ∃ d, lookupPD schema p.1 = some d ∧ d.validate p.2 = (true, none)) :
    BaseIndicator.validate_parameters schema params = (true, []) := by
  unfold BaseIndicator.validate_parameters
  rw [List.filterMap_eq_nil_iff.mpr ?hu, List.filterMap_eq_nil_iff.mpr ?he]
  · rfl
  case hu =>
    intro p hp
    obtain ⟨d, hd, _⟩ := hv p hp
    simp [hd]
  case he =>
    intro p hp
    cases hl : lookupVal params p.1 with
    | none => simp [hl]
    | some v =>
        obtain ⟨d, hd, hval⟩ := hv (p.1, v) (mem_of_lookupVal hl)
        have hdp : p.2 = d := by
          have h2 := lookupPD_of_nodup_mem schema hs p.1 p.2 (by rw [Prod.mk.eta]; exact hp)
          rw [h2] at hd
          exact Option.some_injective _ hd
        simp [hl, hdp, hval]

/-- C7: a batch whose names all exist in the schema and whose values each pass
their own descriptor validates, `set_parameters` returns `(true, [])`, and a
subsequent `get_parameters` returns the batch values for the batch names and
the previously current values for every other parameter. -/
theorem C7_set_parameters_get_parameters_roundtrip (schema : ParamSchema)
    (params : List (String × PyVal))
    (hs : (schema.map Prod.fst).Nodup) (hp : (params.map Prod.fst).Nodup)
    (hv : ∀ p ∈ params, ∃ d, lookupPD schema p.1 = some d ∧ d.validate p.2 = (true, none)) :
    (BaseIndicator.set_parameters schema params).1 = (true, []) ∧
      (∀ n v, lookupVal params n = some v →
        lookupVal (BaseIndicator.get_parameters
          (BaseIndicator.set_parameters schema params).2) n = some v) ∧
      (∀ n, lookupVal params n = none →
        lookupVal (BaseIndicator.get_parameters
            (BaseIndicator.set_parameters schema params).2) n =
          lookupVal (BaseIndicator.get_parameters schema) n) := by
  have hok := validate_parameters_ok schema params hs hv
  have hset : BaseIndicator.set_parameters schema params =
      ((true, []), params.foldl (fun s p => BaseIndicator.updateDefault s p.1 p.2) schema) := by
    unfold BaseIndicator.set_parameters
    rw [hok]
    rfl
  rw [hset]
  refine ⟨rfl, ?_, ?_⟩
  · intro n v hnv
    rw [lookupVal_get_parameters, lookupPD_foldl_updateDefault params schema hp n, hnv]
    obtain ⟨d, hd, _⟩ := hv (n, v) (mem_of_lookupVal hnv)
    simp [hd]
  · intro n hnone
    rw [lookupVal_get_parameters, lookupVal_get_parameters,
        lookupPD_foldl_updateDefault params schema hp n, hnone]

/-- Witness for C7: setting period to 30 on the SMA schema round-trips. -/
theorem C7_witness :
    (BaseIndicator.set_parameters SimpleMovingAverage.parameters sampleGoodBatch).1 = (true, []) ∧
      (∀ n v, lookupVal sampleGoodBatch n = some v →
        lookupVal (BaseIndicator.get_parameters
          (BaseIndicator.set_parameters SimpleMovingAverage.parameters sampleGoodBatch).2) n = some v) ∧
      (∀ n, lookupVal sampleGoodBatch n = none →
        lookupVal (BaseIndicator.get_parameters
            (BaseIndicator.set_parameters SimpleMovingAverage.parameters sampleGoodBatch).2) n =
          lookupVal (BaseIndicator.get_parameters SimpleMovingAverage.parameters) n) :=
  C7_set_parameters_get_parameters_roundtrip SimpleMovingAverage.parameters sampleGoodBatch
    (by decide) (by decide)
    (by
      intro p hmem
      have hp : p = ("period", PyVal.int 30) := by
        have : sampleGoodBatch = [("period", PyVal.int 30)] := rfl
        rw [this] at hmem
        simpa using hmem
      rw [hp]
      exact ⟨_, rfl, by decide⟩)

/-- C5: the auxiliary pane flag is set iff some selected indicator resolves
and its first declared plot configuration uses the secondary axis; the volume
pane exists iff volume display is requested; the height fractions are [1] for
a single pane, [0.7, 0.3] for price+volume or price+auxiliary, and
[0.5, 0.25, 0.25] for price+volume+auxiliary; and the pane order is price
(row 1), volume (row 2), auxiliary (last row). -/
theorem C5_chart_layout_determinism (lookup : String → Option (List PlotConfig))
    (indicators : List String) (show_volume : Bool) :
    ((chartLayout lookup indicators show_volume).has_separate = true ↔
        ∃ ind ∈ indicators, ∃ c cs, lookup ind = some (c :: cs) ∧ c.yaxis = "y2") ∧
      ((chartLayout lookup indicators show_volume).volume_row.isSome = show_volume) ∧
      ((chartLayout lookup indicators show_volume).row_heights =
        if (chartLayout lookup indicators show_volume).has_separate && show_volume then
          [(1 : ℚ)/2, 1/4, 1/4]
        else if (chartLayout lookup indicators show_volume).has_separate || show_volume then
          [(7 : ℚ)/10, 3/10]
        else [(1 : ℚ)]) ∧
      ((chartLayout lookup indicators show_volume).has_separate = true ∧ show_volume = true →
        (chartLayout lookup indicators show_volume).n_subplots = 3 ∧
          (chartLayout lookup indicators show_volume).volume_row = some 2 ∧
          (chartLayout lookup indicators show_volume).indicator_row = 3) ∧
      ((chartLayout lookup indicators show_volume).has_separate = true →
        (chartLayout lookup indicators show_volume).indicator_row =
          (chartLayout lookup indicators show_volume).n_subplots) := by
  refine ⟨?_, ?_, ?_, ?_, ?_⟩
  · show hasSeparateIndicator lookup indicators = true ↔ _
    unfold hasSeparateIndicator
    rw [List.any_eq_true]
    constructor
    · rintro ⟨ind, hmem, hp⟩
      refine ⟨ind, hmem, ?_⟩
      cases hl : lookup ind with
      | none => rw [hl] at hp; cases hp
      | some cfgs =>
          cases cfgs with
          | nil => rw [hl] at hp; cases hp
          | cons c cs =>
              rw [hl] at hp
              exact ⟨c, cs, rfl, by simpa using hp⟩
    · rintro ⟨ind, hmem, c, cs, hl, hy⟩
      refine ⟨ind, hmem, ?_⟩
      rw [hl]
      simpa using hy
  · cases show_volume <;> rfl
  · cases hsep : hasSeparateIndicator lookup indicators <;> cases show_volume <;>
      simp [chartLayout, hsep]
  · rintro ⟨h1, h2⟩
    have hsep : hasSeparateIndicator lookup indicators = true := h1
    subst h2
    simp [chartLayout, hsep]
  · intro h1
    have hsep : hasSeparateIndicator lookup indicators = true := h1
    cases show_volume <;> simp [chartLayout, hsep]

/-- Witness for C5: one secondary-axis indicator with volume enabled yields a
three-pane plan in price/volume/auxiliary order. -/
theorem C5_witness :
    (chartLayout sampleLookup ["Relative Strength Index"] true).n_subplots = 3 ∧
      (chartLayout sampleLookup ["Relative Strength Index"] true).volume_row = some 2 ∧
      (chartLayout sampleLookup ["Relative Strength Index"] true).indicator_row = 3 :=
  (C5_chart_layout_determinism sampleLookup ["Relative Strength Index"] true).2.2.2.1
    ⟨by decide, rfl⟩

/-- Counterexample for C2: Market Cipher A performs no period-versus-length
check.  On the valid 3-row series, with channel length 9 and average length
12 both exceeding the row count, calculate succeeds instead of raising a
ValidationError naming the period and the data length. -/
theorem C2_counterexample :
    (BaseIndicator.validate_data sampleFrame).1 = true ∧
      sampleFrame.nrows < 9 ∧ sampleFrame.nrows < 12 ∧
      (MarketCipherA.calculate 9 12 sampleFrame).isOk = true :=
  ⟨by decide, by decide, by decide, by decide⟩

/-- C2 (amended): on a series that passes structural validation but has fewer
rows than the set period, EMA, RSI and Bollinger Bands raise a ValueError
whose message names both the period and the data length; SMA instead raises
its inverted-validation ValueError with an empty violation list (regardless
of the period); and Market Cipher A and Market Cipher B perform no
period-versus-length check at all and return successfully. -/
theorem C2_amended_insufficient_rows (df : Frame)
    (hv : (BaseIndicator.validate_data df).1 = true)
    (p1 p2 p3 : Nat) (mult : ℚ)
    (h1 : p1 > df.nrows) (h2 : p2 > df.nrows) (h3 : p3 > df.nrows)
    (cl al ml : Nat) (ob os : ℤ) :
    ExponentialMovingAverage.calculate p1 df =
        Except.error (.valueError (periodLenMsg p1 df.nrows)) ∧
      RelativeStrengthIndex.calculate p2 df =
        Except.error (.valueError (periodLenMsg p2 df.nrows)) ∧
      BollingerBands.calculate p3 mult df =
        Except.error (.valueError (periodLenMsg p3 df.nrows)) ∧
      SimpleMovingAverage.calculate p1 df =
        Except.error (.valueError "Data validation failed: ") ∧
      (MarketCipherA.calculate cl al df).isOk = true ∧
      (MarketCipherB.calculate cl al ml ob os df).isOk = true := by
  have hcols := validate_data_true_hasCol df hv
  have hclose : df.hasCol "close" = true := hcols "close" (by decide)
  have hhigh : df.hasCol "high" = true := hcols "high" (by decide)
  have hlow : df.hasCol "low" = true := hcols "low" (by decide)
  have hvol : df.hasCol "volume" = true := hcols "volume" (by decide)
  refine ⟨?_, ?_, ?_, ?_, ?_, ?_⟩
  · unfold ExponentialMovingAverage.calculate ExponentialMovingAverage.check
    simp [hv, hclose, h1]
  · unfold RelativeStrengthIndex.calculate RelativeStrengthIndex.check
    simp [hv, hclose, h2]
  · unfold BollingerBands.calculate BollingerBands.check
    simp [hv, hclose, h3]
  · unfold SimpleMovingAverage.calculate SimpleMovingAverage.check
    simp only [validate_data_true_errors_nil df hv]
    rfl
  · unfold MarketCipherA.calculate MarketCipherA.check
    have hfind : (["high", "low", "close"].find? (fun c => !df.hasCol c)) = none := by
      rw [List.find?_eq_none]
      intro c hc
      fin_cases hc <;> simp [hhigh, hlow, hclose]
    simp [hv, hfind]
    rfl
  · unfold MarketCipherB.calculate MarketCipherB.check
    have hfind : (["high", "low", "close", "volume"].find? (fun c => !df.hasCol c)) = none := by
      rw [List.find?_eq_none]
      intro c hc
      fin_cases hc <;> simp [hhigh, hlow, hclose, hvol]
    simp [hv, hfind]
    rfl

/-- Witness for C2 (amended): the valid 3-row frame with period 20. -/
theorem C2_witness :
    ExponentialMovingAverage.calculate 20 sampleFrame =
        Except.error (.valueError (periodLenMsg 20 sampleFrame.nrows)) ∧
      RelativeStrengthIndex.calculate 20 sampleFrame =
        Except.error (.valueError (periodLenMsg 20 sampleFrame.nrows)) ∧
      BollingerBands.calculate 20 2 sampleFrame =
        Except.error (.valueError (periodLenMsg 20 sampleFrame.nrows)) ∧
      SimpleMovingAverage.calculate 20 sampleFrame =
        Except.error (.valueError "Data validation failed: ") ∧
      (MarketCipherA.calculate 9 12 sampleFrame).isOk = true ∧
      (MarketCipherB.calculate 9 12 60 53 (-53) sampleFrame).isOk = true :=
  C2_amended_insufficient_rows sampleFrame (by decide) 20 20 20 2
    (by decide) (by decide) (by decide) 9 12 60 53 (-53)

theorem heap_copy_write_preserves (h : Heap) (r : Nat) (hr : r < h.length) (f g : Frame) :
    ((h ++ [f]).set h.length g)[r]? = h[r]? := by
  rw [List.getElem?_set_ne (by omega), List.getElem?_append, if_pos hr]

/-- C9: every built-in `calculate` leaves the caller-supplied frame object
untouched in the heap, whether it returns or raises: the validation prefix
only reads, and every column write targets the freshly allocated copy. -/
theorem C9_calculate_leaves_input_frame_unchanged (h : Heap) (r : Nat) (hr : r < h.length)
    (p1 p2 p3 pb : Nat) (mult : ℚ) (cl al ml : Nat) (ob os : ℤ) :
    ((SimpleMovingAverage.calculateHeap p1 h r).2)[r]? = h[r]? ∧
      ((ExponentialMovingAverage.calculateHeap p2 h r).2)[r]? = h[r]? ∧
      ((RelativeStrengthIndex.calculateHeap p3 h r).2)[r]? = h[r]? ∧
      ((BollingerBands.calculateHeap pb mult h r).2)[r]? = h[r]? ∧
      ((MarketCipherA.calculateHeap cl al h r).2)[r]? = h[r]? ∧
      ((MarketCipherB.calculateHeap cl al ml ob os h r).2)[r]? = h[r]? := by
  refine ⟨?_, ?_, ?_, ?_, ?_, ?_⟩
  · unfold SimpleMovingAverage.calculateHeap
    cases hc : SimpleMovingAverage.check p1 (h.read r) with
    | some e => rfl
    | none => exact heap_copy_write_preserves h r hr _ _
  · unfold ExponentialMovingAverage.calculateHeap
    cases hc : ExponentialMovingAverage.check p2 (h.read r) with
    | some e => rfl
    | none => exact heap_copy_write_preserves h r hr _ _
  · unfold RelativeStrengthIndex.calculateHeap
    cases hc : RelativeStrengthIndex.check p3 (h.read r) with
    | some e => rfl
    | none => exact heap_copy_write_preserves h r hr _ _
  · unfold BollingerBands.calculateHeap
    cases hc : BollingerBands.check pb (h.read r) with
    | some e => rfl
    | none => exact heap_copy_write_preserves h r hr _ _
  · unfold MarketCipherA.calculateHeap
    cases hc : MarketCipherA.check (h.read r) with
    | some e => rfl
    | none => exact heap_copy_write_preserves h r hr _ _
  · unfold MarketCipherB.calculateHeap
    cases hc : MarketCipherB.check (h.read r) with
    | some e => rfl
    | none => exact heap_copy_write_preserves h r hr _ _

/-- Witness for C9: the one-object heap with the sample frame. -/
theorem C9_witness :
    ((SimpleMovingAverage.calculateHeap 2 sampleHeap 0).2)[0]? = sampleHeap[0]? ∧
      ((ExponentialMovingAverage.calculateHeap 2 sampleHeap 0).2)[0]? = sampleHeap[0]? ∧
      ((RelativeStrengthIndex.calculateHeap 2 sampleHeap 0).2)[0]? = sampleHeap[0]? ∧
      ((BollingerBands.calculateHeap 2 2 sampleHeap 0).2)[0]? = sampleHeap[0]? ∧
      ((MarketCipherA.calculateHeap 9 12 sampleHeap 0).2)[0]? = sampleHeap[0]? ∧
      ((MarketCipherB.calculateHeap 9 12 60 53 (-53) sampleHeap 0).2)[0]? = sampleHeap[0]? :=
  C9_calculate_leaves_input_frame_unchanged sampleHeap 0 (by decide) 2 2 2 2 2 9 12 60 53 (-53)

theorem registerClasses_isEmpty (cls : List PluginClass) :
    ∀ reg, (PluginManager.registerClasses reg cls).2.isEmpty =
      ! (cls.any fun c => (PluginManager.validatePlugin c).1) := by
  induction cls with
  | nil => intro reg; rfl
  | cons c rest ih =>
      intro reg
      by_cases hval : (PluginManager.validatePlugin c).1 = true
      · simp [PluginManager.registerClasses, hval]
      · simp [PluginManager.registerClasses, hval, ih]

theorem load_plugin_fst (reg : Registry) (mn : String) (cls : List PluginClass) :
    (PluginManager.load_plugin reg mn cls).1 =
      if PluginManager.moduleLoadsOk cls then (true, none)
      else (false, some ("No valid BaseIndicator subclasses found in " ++ mn)) := by
  unfold PluginManager.load_plugin PluginManager.moduleLoadsOk
  by_cases hok : (cls.any fun c => (PluginManager.validatePlugin c).1) = true
  · simp [registerClasses_isEmpty, hok]
  · simp [registerClasses_isEmpty, hok]

theorem load_plugin_snd (reg : Registry) (mn : String) (cls : List PluginClass) :
    (PluginManager.load_plugin reg mn cls).2 = (PluginManager.registerClasses reg cls).1 := by
  unfold PluginManager.load_plugin
  by_cases hie : (PluginManager.registerClasses reg cls).2.isEmpty = true
  · simp [hie]
  · simp [hie]

theorem mem_keys_registerReplace (reg : Registry) (m : String) (c : PluginClass) (n : String) :
    n ∈ (PluginManager.registerReplace reg m c).map Prod.fst ↔
      n ∈ reg.map Prod.fst ∨ n = m := by
  induction reg with
  | nil => simp [PluginManager.registerReplace, eq_comm]
  | cons p rest ih =>
      unfold PluginManager.registerReplace
      by_cases hp : p.1 = m
      · rw [if_pos hp]
        simp [← hp]
        tauto
      · rw [if_neg hp]
        simp [ih]
        tauto

theorem mem_keys_registerClasses (cls : List PluginClass) :
    ∀ (reg : Registry) (n : String),
    n ∈ (PluginManager.registerClasses reg cls).1.map Prod.fst ↔
      n ∈ reg.map Prod.fst ∨
        ∃ c ∈ cls, (PluginManager.validatePlugin c).1 = true ∧ c.name = n := by
  induction cls with
  | nil => intro reg n; simp [PluginManager.registerClasses]
  | cons c rest ih =>
      intro reg n
      by_cases hval : (PluginManager.validatePlugin c).1 = true
      · show n ∈ (PluginManager.registerClasses reg (c :: rest)).1.map Prod.fst ↔ _
        unfold PluginManager.registerClasses
        rw [if_pos hval]
        show n ∈ (PluginManager.registerClasses
            (PluginManager.registerReplace reg c.name c) rest).1.map Prod.fst ↔ _
        rw [ih, mem_keys_registerReplace]
        simp [hval]
        tauto
      · show n ∈ (PluginManager.registerClasses reg (c :: rest)).1.map Prod.fst ↔ _
        unfold PluginManager.registerClasses
        rw [if_neg hval]
        rw [ih]
        simp [hval]

theorem load_all_plugins_results (modules : List (String × List PluginClass)) :
    ∀ reg, (PluginManager.load_all_plugins reg modules).1 =
      modules.map (fun m => (m.1,
        if PluginManager.moduleLoadsOk m.2 then ((true : Bool), (none : Option String))
        else (false, some ("No valid BaseIndicator subclasses found in " ++ m.1)))) := by
  induction modules with
  | nil => intro reg; rfl
  | cons m rest ih =>
      intro reg
      cases m with
      | mk mn cls =>
          simp only [List.map_cons]
          show ((mn, (PluginManager.load_plugin reg mn cls).1) ::
              (PluginManager.load_all_plugins (PluginManager.load_plugin reg mn cls).2 rest).1) = _
          rw [load_plugin_fst, ih]

theorem mem_keys_load_all_plugins (modules : List (String × List PluginClass)) :
    ∀ (reg : Registry) (n : String),
    n ∈ (PluginManager.load_all_plugins reg modules).2.map Prod.fst ↔
      n ∈ reg.map Prod.fst ∨
        ∃ m ∈ modules, ∃ c ∈ m.2, (PluginManager.validatePlugin c).1 = true ∧ c.name = n := by
  induction modules with
  | nil => intro reg n; simp [PluginManager.load_all_plugins]
  | cons m rest ih =>
      intro reg n
      cases m with
      | mk mn cls =>
          show n ∈ (PluginManager.load_all_plugins
              (PluginManager.load_plugin reg mn cls).2 rest).2.map Prod.fst ↔ _
          rw [ih, load_plugin_snd, mem_keys_registerClasses]
          simp only [List.mem_cons]
          constructor
          · rintro ((hr | hc) | hrest)
            · exact Or.inl hr
            · exact Or.inr ⟨(mn, cls), Or.inl rfl, hc⟩
            · obtain ⟨m, hm, hcm⟩ := hrest
              exact Or.inr ⟨m, Or.inr hm, hcm⟩
          · rintro (hr | ⟨m, (rfl | hm), hcm⟩)
            · exact Or.inl (Or.inl hr)
            · exact Or.inl (Or.inr hcm)
            · exact Or.inr ⟨m, hm, hcm⟩

theorem mem_insertSorted (s : String) (l : List String) (n : String) :
    n ∈ PluginManager.insertSorted s l ↔ n = s ∨ n ∈ l := by
  induction l with
  | nil => simp [PluginManager.insertSorted]
  | cons t ts ih =>
      unfold PluginManager.insertSorted
      by_cases hle : s ≤ t
      · simp [hle]
      · simp [hle, ih]
        tauto

theorem mem_sortStrings (l : List String) (n : String) :
    n ∈ PluginManager.sortStrings l ↔ n ∈ l := by
  induction l with
  | nil => simp [PluginManager.sortStrings]
  | cons t ts ih =>
      show n ∈ PluginManager.insertSorted t (PluginManager.sortStrings ts) ↔ _
      rw [mem_insertSorted, ih]
      simp

/-- C4: over any set of discovered modules with at least one well-formed and
one malformed module, `load_all_plugins` returns one result entry per module
(success exactly for the modules with a valid class, failure for the rest,
never aborting the batch), and afterwards the available plugin list contains
exactly the display names of the validly registered classes. -/
theorem C4_load_all_isolation_and_registry (modules : List (String × List PluginClass))
    (_hsucc : ∃ m ∈ modules, PluginManager.moduleLoadsOk m.2 = true)
    (_hfail : ∃ m ∈ modules, PluginManager.moduleLoadsOk m.2 = false) :
    (PluginManager.load_all_plugins [] modules).1 =
        modules.map (fun m => (m.1,
          if PluginManager.moduleLoadsOk m.2 then ((true : Bool), (none : Option String))
          else (false, some ("No valid BaseIndicator subclasses found in " ++ m.1)))) ∧
      (∀ n, n ∈ PluginManager.get_available_plugins
          (PluginManager.load_all_plugins [] modules).2 ↔
        ∃ m ∈ modules, ∃ c ∈ m.2,
          (PluginManager.validatePlugin c).1 = true ∧ c.name = n) := by
  refine ⟨load_all_plugins_results modules [], ?_⟩
  intro n
  unfold PluginManager.get_available_plugins
  rw [mem_sortStrings, mem_keys_load_all_plugins]
  simp

/-- Witness for C4: one well-formed module and one module whose class has an
empty description. -/
theorem C4_witness :
    (PluginManager.load_all_plugins [] sampleModules).1 =
        sampleModules.map (fun m => (m.1,
          if PluginManager.moduleLoadsOk m.2 then ((true : Bool), (none : Option String))
          else (false, some ("No valid BaseIndicator subclasses found in " ++ m.1)))) ∧
      (∀ n, n ∈ PluginManager.get_available_plugins
          (PluginManager.load_all_plugins [] sampleModules).2 ↔
        ∃ m ∈ sampleModules, ∃ c ∈ m.2,
          (PluginManager.validatePlugin c).1 = true ∧ c.name = n) :=
  C4_load_all_isolation_and_registry sampleModules
    ⟨("good_module", [sampleGoodClass]), by decide, by decide⟩
    ⟨("bad_module", [sampleBadClass]), by decide, by decide⟩

theorem foldl_pfAdd_nonneg_or_inf : ∀ (xs : List PF) (acc : PF),
    (∀ x ∈ xs, (∃ q, x = PF.fin q ∧ 0 ≤ q) ∨ x = PF.inf) →
    ((∃ q, acc = PF.fin q ∧ 0 ≤ q) ∨ acc = PF.inf) →
    ((∃ q, xs.foldl pfAdd acc = PF.fin q ∧ 0 ≤ q) ∨ xs.foldl pfAdd acc = PF.inf) := by
  intro xs
  induction xs with
  | nil => intro acc _ hacc; simpa using hacc
  | cons x rest ih =>
      intro acc hx hacc
      simp only [List.foldl_cons]
      have hxg := hx x (List.mem_cons_self x rest)
      apply ih _ (fun y hy => hx y (List.mem_cons_of_mem _ hy))
      rcases hacc with ⟨a, rfl, ha0⟩ | rfl <;> rcases hxg with ⟨b, rfl, hb0⟩ | rfl
      · exact Or.inl ⟨a + b, rfl, by linarith⟩
      · exact Or.inr rfl
      · exact Or.inr rfl
      · exact Or.inr rfl

theorem gains_nonneg_or_inf (delta : List PF) :
    ∀ x ∈ RelativeStrengthIndex.gains delta,
      (∃ q, x = PF.fin q ∧ 0 ≤ q) ∨ x = PF.inf := by
  intro x hx
  obtain ⟨d, _, rfl⟩ := List.mem_map.mp hx
  by_cases hlt : pfLtB (.fin 0) d = true
  · rw [if_pos hlt]
    cases d with
    | fin q => exact Or.inl ⟨q, rfl, le_of_lt (by simpa [pfLtB] using hlt)⟩
    | inf => exact Or.inr rfl
    | ninf => simp [pfLtB] at hlt
    | nan => simp [pfLtB] at hlt
  · rw [if_neg hlt]
    exact Or.inl ⟨0, rfl, le_refl 0⟩

theorem losses_nonneg_or_inf (delta : List PF) :
    ∀ x ∈ RelativeStrengthIndex.losses delta,
      (∃ q, x = PF.fin q ∧ 0 ≤ q) ∨ x = PF.inf := by
  intro x hx
  obtain ⟨d, _, rfl⟩ := List.mem_map.mp hx
  by_cases hlt : pfLtB d (.fin 0) = true
  · rw [if_pos hlt]
    cases d with
    | fin q =>
        exact Or.inl ⟨-q, rfl, by
          have : q < 0 := by simpa [pfLtB] using hlt
          linarith⟩
    | ninf => exact Or.inr rfl
    | inf => simp [pfLtB] at hlt
    | nan => simp [pfLtB] at hlt
  · rw [if_neg hlt]
    exact Or.inl ⟨-0, rfl, by norm_num⟩

theorem rollingMean_good (w : Nat) (xs : List PF)
    (h : ∀ x ∈ xs, (∃ q, x = PF.fin q ∧ 0 ≤ q) ∨ x = PF.inf) :
    ∀ y ∈ rollingMeanPF w xs,
      (∃ q, y = PF.fin q ∧ 0 ≤ q) ∨ y = PF.inf ∨ y = PF.nan := by
  intro y hy
  unfold rollingMeanPF rollingPF at hy
  obtain ⟨i, _, rfl⟩ := List.mem_map.mp hy
  by_cases hw : i + 1 < w
  · rw [if_pos hw]
    exact Or.inr (Or.inr rfl)
  · rw [if_neg hw]
    beta_reduce
    have hwin : ∀ x ∈ windowAt w xs i, (∃ q, x = PF.fin q ∧ 0 ≤ q) ∨ x = PF.inf := by
      intro x hxw
      exact h x (((List.drop_sublist _ _).trans (List.take_sublist _ _)).mem hxw)
    have hsum := foldl_pfAdd_nonneg_or_inf (windowAt w xs i) (.fin 0) hwin
      (Or.inl ⟨0, rfl, le_refl 0⟩)
    rcases hsum with ⟨s, hs, hs0⟩ | hs
    · rw [show pfSum (windowAt w xs i) = PF.fin s from hs]
      by_cases hw0 : ((w : ℚ)) = 0
      · by_cases hs' : 0 < s
        · rw [show pfDiv (PF.fin s) (PF.fin (w : ℚ)) = PF.inf from by
            simp [pfDiv, hw0, hs']]
          exact Or.inr (Or.inl rfl)
        · have : s = 0 := le_antisymm (not_lt.mp hs') hs0
          subst this
          rw [show pfDiv (PF.fin 0) (PF.fin (w : ℚ)) = PF.nan from by
            simp [pfDiv, hw0]]
          exact Or.inr (Or.inr rfl)
      · rw [show pfDiv (PF.fin s) (PF.fin (w : ℚ)) = PF.fin (s / w) from by
          simp [pfDiv, hw0]]
        have hwpos : (0 : ℚ) ≤ (w : ℚ) := by positivity
        exact Or.inl ⟨s / w, rfl, div_nonneg hs0 hwpos⟩
    · rw [show pfSum (windowAt w xs i) = PF.inf from hs]
      rw [show pfDiv PF.inf (PF.fin (w : ℚ)) = PF.inf from by simp [pfDiv]]
      exact Or.inr (Or.inl rfl)

theorem rsi_cell_bounds (g l : PF)
    (hg : (∃ q, g = PF.fin q ∧ 0 ≤ q) ∨ g = PF.inf ∨ g = PF.nan)
    (hl : (∃ q, l = PF.fin q ∧ 0 ≤ q) ∨ l = PF.inf ∨ l = PF.nan) :
    (∃ q, pfSub (.fin 100) (pfDiv (.fin 100) (pfAdd (.fin 1) (pfDiv g l))) = PF.fin q ∧
        0 ≤ q ∧ q ≤ 100) ∨
      pfSub (.fin 100) (pfDiv (.fin 100) (pfAdd (.fin 1) (pfDiv g l))) = PF.nan := by
  rcases hg with ⟨a, rfl, ha⟩ | rfl | rfl <;> rcases hl with ⟨b, rfl, hb⟩ | rfl | rfl
  · by_cases hb0 : b = 0
    · subst hb0
      by_cases ha0 : 0 < a
      · rw [show pfDiv (PF.fin a) (PF.fin 0) = PF.inf from by simp [pfDiv, ha0]]
        exact Or.inl ⟨100 + -0, rfl, by norm_num, by norm_num⟩
      · have ha0' : a = 0 := le_antisymm (not_lt.mp ha0) ha
        subst ha0'
        rw [show pfDiv (PF.fin 0) (PF.fin 0) = PF.nan from by simp [pfDiv]]
        exact Or.inr rfl
    · rw [show pfDiv (PF.fin a) (PF.fin b) = PF.fin (a / b) from by simp [pfDiv, hb0]]
      have hr0 : 0 ≤ a / b := div_nonneg ha hb
      have h1 : (0 : ℚ) < 1 + a / b := by linarith
      rw [show pfAdd (PF.fin 1) (PF.fin (a / b)) = PF.fin (1 + a / b) from rfl]
      rw [show pfDiv (PF.fin 100) (PF.fin (1 + a / b)) = PF.fin (100 / (1 + a / b)) from by
        simp [pfDiv, ne_of_gt h1]]
      refine Or.inl ⟨100 + -(100 / (1 + a / b)), rfl, ?_, ?_⟩
      · have hle : 100 / (1 + a / b) ≤ 100 := div_le_self (by norm_num) (by linarith)
        linarith
      · have hpos : 0 < 100 / (1 + a / b) := by positivity
        linarith
  · rw [show pfDiv (PF.fin a) PF.inf = PF.fin 0 from rfl,
        show pfAdd (PF.fin 1) (PF.fin 0) = PF.fin (1 + 0) from rfl,
        show pfDiv (PF.fin 100) (PF.fin (1 + 0)) = PF.fin (100 / (1 + 0)) from by
          norm_num [pfDiv]]
    exact Or.inl ⟨100 + -(100 / (1 + 0)), rfl, by norm_num, by norm_num⟩
  · rw [show pfDiv (PF.fin a) PF.nan = PF.nan from rfl]
    exact Or.inr rfl
  · rw [show pfDiv PF.inf (PF.fin b) = PF.inf from by simp [pfDiv, hb]]
    rw [show pfAdd (PF.fin 1) PF.inf = PF.inf from rfl]
    rw [show pfDiv (PF.fin 100) PF.inf = PF.fin 0 from rfl]
    exact Or.inl ⟨100 + -0, rfl, by norm_num, by norm_num⟩
  · exact Or.inr rfl
  · exact Or.inr rfl
  · exact Or.inr rfl
  · exact Or.inr rfl
  · exact Or.inr rfl

theorem mem_zipWith {α β γ : Type} (f : α → β → γ) :
    ∀ (as : List α) (bs : List β) (x : γ), x ∈ List.zipWith f as bs →
      ∃ a ∈ as, ∃ b ∈ bs, x = f a b := by
  intro as
  induction as with
  | nil => intro bs x hx; simp at hx
  | cons a as ih =>
      intro bs x hx
      cases bs with
      | nil => simp at hx
      | cons b bs =>
          simp only [List.zipWith_cons_cons, List.mem_cons] at hx
          rcases hx with rfl | hx
          · exact ⟨a, List.mem_cons_self _ _, b, List.mem_cons_self _ _, rfl⟩
          · obtain ⟨a', ha, b', hb, rfl⟩ := ih bs x hx
            exact ⟨a', List.mem_cons_of_mem _ ha, b', List.mem_cons_of_mem _ hb, rfl⟩

theorem rsiColumn_range (period : Nat) (close : List PF) :
    ∀ x ∈ RelativeStrengthIndex.rsiColumn period close,
      ∀ q : ℚ, x = PF.fin q → 0 ≤ q ∧ q ≤ 100 := by
  intro x hx q hq
  obtain ⟨g, hg, l, hl, rfl⟩ := mem_zipWith _ _ _ x hx
  have hgg := rollingMean_good period _
    (gains_nonneg_or_inf (diffPF close)) g hg
  have hll := rollingMean_good period _
    (losses_nonneg_or_inf (diffPF close)) l hl
  rcases rsi_cell_bounds g l hgg hll with ⟨q', hq', h0, h100⟩ | hnan
  · rw [hq'] at hq
    cases hq
    exact ⟨h0, h100⟩
  · rw [hnan] at hq
    cases hq

theorem rsiColumn_pinned (period : Nat) (close : List PF) (i : Nat) (g : ℚ)
    (hl : (RelativeStrengthIndex.avgLoss period close)[i]? = some (PF.fin 0))
    (hg : (RelativeStrengthIndex.avgGain period close)[i]? = some (PF.fin g))
    (hgpos : 0 < g) :
    (RelativeStrengthIndex.rsiColumn period close)[i]? = some (PF.fin 100) := by
  unfold RelativeStrengthIndex.rsiColumn
  rw [List.getElem?_zipWith, hg, hl]
  show some (pfSub (PF.fin 100)
    (pfDiv (PF.fin 100) (pfAdd (PF.fin 1) (pfDiv (PF.fin g) (PF.fin 0))))) = some (PF.fin 100)
  rw [show pfDiv (PF.fin g) (PF.fin 0) = PF.inf from by simp [pfDiv, hgpos]]
  rw [show pfAdd (PF.fin 1) PF.inf = PF.inf from rfl]
  rw [show pfDiv (PF.fin 100) PF.inf = PF.fin 0 from rfl]
  rw [show pfSub (PF.fin 100) (PF.fin 0) = PF.fin (100 + -0) from rfl]
  norm_num

theorem find?_replace (c : String) (v : List PF) : ∀ (cols : List (String × List PF)),
    (cols.map fun p => if p.1 = c then (c, v) else p).find? (fun p => p.1 = c) =
      if cols.any (fun p => p.1 = c) then some (c, v) else none := by
  intro cols
  induction cols with
  | nil => rfl
  | cons p rest ih =>
      by_cases hp : p.1 = c
      · simp only [List.map_cons, if_pos hp, List.any_cons]
        rw [List.find?_cons_of_pos _ (by simp)]
        simp [hp]
      · simp only [List.map_cons, if_neg hp, List.any_cons]
        rw [List.find?_cons_of_neg _ (by simpa using hp)]
        rw [ih]
        have hd : (decide (p.1 = c) || rest.any fun p => decide (p.1 = c)) =
            (rest.any fun p => decide (p.1 = c)) := by
          rw [decide_eq_false hp, Bool.false_or]
        simp only [hd]

theorem find?_append_none {α : Type} (p : α → Bool) : ∀ (l₁ l₂ : List α),
    l₁.find? p = none → (l₁ ++ l₂).find? p = l₂.find? p := by
  intro l₁
  induction l₁ with
  | nil => intro l₂ _; rfl
  | cons a l ih =>
      intro l₂ hn
      by_cases hp : p a = true
      · rw [List.find?_cons_of_pos _ hp] at hn
        cases hn
      · rw [List.find?_cons_of_neg _ (by simpa using hp)] at hn
        rw [List.cons_append, List.find?_cons_of_neg _ (by simpa using hp)]
        exact ih l₂ hn

theorem getCol_setCol_self (df : Frame) (c : String) (v : List PF) :
    (df.setCol c v).getCol c = some v := by
  unfold Frame.setCol
  by_cases hc : df.hasCol c = true
  · rw [if_pos hc]
    show ((df.cols.map fun p => if p.1 = c then (c, v) else p).find?
      (fun p => p.1 = c)).map Prod.snd = some v
    rw [find?_replace]
    have hany : df.cols.any (fun p => p.1 = c) = true := by
      unfold Frame.hasCol Frame.getCol at hc
      rw [Option.isSome_map'] at hc
      rcases Option.isSome_iff_exists.mp hc with ⟨p, hp⟩
      rw [List.any_eq_true]
      exact ⟨p, List.mem_of_find?_eq_some hp, by simpa using List.find?_some hp⟩
    rw [if_pos hany]
    rfl
  · rw [if_neg hc]
    show ((df.cols ++ [(c, v)]).find? (fun p => p.1 = c)).map Prod.snd = some v
    have hnone : df.cols.find? (fun p => p.1 = c) = none := by
      unfold Frame.hasCol Frame.getCol at hc
      rw [Option.isSome_map'] at hc
      exact Option.not_isSome_iff_eq_none.mp (by simpa using hc)
    rw [find?_append_none _ _ _ hnone]
    rw [List.find?_cons_of_pos _ (by simp)]
    rfl

/-- C8: every defined value of the RSI column produced by a successful
`RelativeStrengthIndex.calculate` lies in [0, 100]; and wherever the rolling
average loss is zero and the rolling average gain is positive, the produced
value is exactly 100 (the divide-by-zero policy: rs = +inf, rsi = 100). -/
theorem C8_rsi_range_and_divide_by_zero (period : Nat) (df df2 : Frame)
    (h : RelativeStrengthIndex.calculate period df = .ok df2) :
    (∀ x ∈ df2.getColD ("RSI_" ++ toString period), ∀ q : ℚ, x = PF.fin q →
        0 ≤ q ∧ q ≤ 100) ∧
      (∀ (i : Nat) (g : ℚ),
        (RelativeStrengthIndex.avgLoss period (df.getColD "close"))[i]? = some (PF.fin 0) →
        (RelativeStrengthIndex.avgGain period (df.getColD "close"))[i]? = some (PF.fin g) →
        0 < g →
        (df2.getColD ("RSI_" ++ toString period))[i]? = some (PF.fin 100)) := by
  have hdf2 : df2 = RelativeStrengthIndex.aug period df := by
    unfold RelativeStrengthIndex.calculate at h
    cases hc : RelativeStrengthIndex.check period df with
    | some e => rw [hc] at h; cases h
    | none =>
        rw [hc] at h
        exact (Except.ok.inj h).symm
  subst hdf2
  have hcol : (RelativeStrengthIndex.aug period df).getColD ("RSI_" ++ toString period) =
      RelativeStrengthIndex.rsiColumn period (df.getColD "close") := by
    unfold RelativeStrengthIndex.aug Frame.getColD
    rw [getCol_setCol_self]
    rfl
  rw [hcol]
  exact ⟨fun x hx q hq => rsiColumn_range period _ x hx q hq,
    fun i g hl hg hp => rsiColumn_pinned period _ i g hl hg hp⟩

/-- Witness for C8: period 2 on the sample frame (whose RSI column is
[nan, 100, 100]). -/
theorem C8_witness :
    (∀ x ∈ rsiSampleResult.getColD ("RSI_" ++ toString 2), ∀ q : ℚ, x = PF.fin q →
        0 ≤ q ∧ q ≤ 100) ∧
      (∀ (i : Nat) (g : ℚ),
        (RelativeStrengthIndex.avgLoss 2 (sampleFrame.getColD "close"))[i]? = some (PF.fin 0) →
        (RelativeStrengthIndex.avgGain 2 (sampleFrame.getColD "close"))[i]? = some (PF.fin g) →
        0 < g →
        (rsiSampleResult.getColD ("RSI_" ++ toString 2))[i]? = some (PF.fin 100)) :=
  C8_rsi_range_and_divide_by_zero 2 sampleFrame rsiSampleResult rfl
